import Mathlib

/-!
# RRC NR procedures: a shallow embedding

Embedding of `srsue/src/stack/rrc_nr/rrc_nr_procedures.cc`.  Every procedure
method becomes a function that takes the procedure object and the stack context
`rrc_nr` it refers to (`rrc_handle`) and returns the outcome together with the
updated procedure object and stack context.

Calls that leave the procedure (lower layers, the procedure manager of another
procedure, the callback list) are appended, in program order and with the value
they returned, to the ghost log `rrc_nr.calls`.  Logging and console output are
not modelled.
-/

namespace srsue

/-! ## Data model -/

/-- The outcome of one `init`/`step`/`react` call (`srsran::proc_outcome_t`). -/
inductive proc_outcome_t where
  | repeat
  | yield
  | success
  | error
  deriving DecidableEq, Repr

/-- The result a procedure resolved with (`srsran::proc_result_t<T>`): a value on
success, nothing on error. -/
inductive proc_result_t (α : Type) where
  | value (v : α)
  | error
  deriving DecidableEq, Repr

/-- Mirror of `proc_result_t::is_error()`. -/
def proc_result_t.is_error {α : Type} : proc_result_t α → Bool
  | .value _ => false
  | .error => true

/-- Mirror of `proc_result_t::is_success()`. -/
def proc_result_t.is_success {α : Type} : proc_result_t α → Bool
  | .value _ => true
  | .error => false

/-- The result without a value handed to `then` (`srsran::proc_state_t`). -/
abbrev proc_state_t := proc_result_t Unit

/-- A `unique_byte_buffer_t`: an owning pointer that is either null or holds the
bytes of a PDU. -/
abbrev unique_byte_buffer_t := Option (List Nat)

/-- The RRC NR state; the procedures only compare it with `RRC_NR_STATE_IDLE`. -/
inductive rrc_nr_state_t where
  | RRC_NR_STATE_IDLE
  | RRC_NR_STATE_CONNECTED
  | RRC_NR_STATE_CONNECTED_INACTIVE
  deriving DecidableEq, Repr

/-- The PHY configuration progress flag of the stack. -/
inductive phy_cfg_state_t where
  | PHY_CFG_STATE_NONE
  | PHY_CFG_STATE_APPLY_SP_CELL
  | PHY_CFG_STATE_RA_COMPLETED
  deriving DecidableEq, Repr

/-- The classified result of a cell selection. -/
inductive cell_search_result_t where
  | changed_cell
  | same_cell
  | no_cell
  deriving DecidableEq, Repr

/-- The event a finished cell selection delivers to the setup-request procedure
(`cell_selection_proc::cell_selection_complete_ev`). -/
abbrev cell_selection_complete_ev := proc_result_t cell_search_result_t

/-- The establishment cause carried by a setup request, kept as its number. -/
abbrev nr_establishment_cause_t := Nat

/-- The identity of a physical cell. -/
structure phy_cell_t where
  pci : Nat
  earfcn : Nat
  deriving DecidableEq, Repr

/-- A measured cell: its identity and its last measurement. -/
structure meas_cell_nr where
  phy_cell : phy_cell_t
  rsrp : Int
  deriving DecidableEq, Repr

/-- The list of measured cells, of which the procedures read the serving cell. -/
structure meas_cell_list where
  serv_cell : meas_cell_nr
  deriving DecidableEq, Repr

/-- Mirror of `meas_cells.serving_cell()`. -/
def meas_cell_list.serving_cell (m : meas_cell_list) : meas_cell_nr := m.serv_cell

/-- The PHY configuration of the stack; `ssb` stands for the part of it that
`get_ssb_cfg()` reads. -/
structure phy_cfg_t where
  carrier : Nat
  ssb : Nat
  deriving DecidableEq, Repr

/-- Mirror of `phy_cfg.get_ssb_cfg()`. -/
def phy_cfg_t.get_ssb_cfg (c : phy_cfg_t) : Nat := c.ssb

/-- The arguments of a PHY cell select (`phy_interface_rrc_nr::cell_select_args_t`). -/
structure cell_select_args_t where
  carrier : Nat
  ssb_cfg : Nat
  deriving DecidableEq, Repr

/-- A decoded cell group configuration, kept as an identifier. -/
abbrev cell_group_cfg_s := Nat

/-- A radio bearer configuration, kept as an identifier. -/
abbrev radio_bearer_cfg_s := Nat

/-- One call that leaves a procedure, with the value it returned. -/
inductive Call where
  | cell_selector_is_idle (ret : Bool)
  | cell_selector_launch (ret : Bool)
  | callback_list_add_proc
  | phy_set_config (cfg : phy_cfg_t)
  | phy_start_cell_select (args : cell_select_args_t)
  | send_setup_request (cause : nr_establishment_cause_t)
  | send_con_setup_complete (nas : unique_byte_buffer_t)
  | apply_cell_group_cfg (cfg : cell_group_cfg_s) (ret : Bool)
  | configure_sk_counter (counter : Nat) (ret : Bool)
  | apply_radio_bearer_cfg (cfg : radio_bearer_cfg_s) (ret : Bool)
  | nr_rrc_con_reconfig_complete (status : Bool)
  | nr_notify_reconfiguration_failure
  | setup_req_proc_trigger (e : cell_selection_complete_ev)
  deriving DecidableEq, Repr

/-- The states of the setup-request procedure. -/
inductive state_t where
  | cell_selection
  | config_serving_cell
  | wait_t300
  deriving DecidableEq, Repr

/-- The states of the cell-selection procedure. -/
inductive search_state_t where
  | cell_selection
  | serv_cell_camp
  | cell_config
  | cell_search
  deriving DecidableEq, Repr

/-- The members of `rrc_nr::setup_request_proc`. -/
structure setup_request_proc where
  state : state_t
  cause : nr_establishment_cause_t
  dedicated_info_nas : unique_byte_buffer_t
  cell_search_ret : cell_search_result_t
  deriving DecidableEq, Repr

/-- The members of `rrc_nr::cell_selection_proc` (`meas_cells` is a reference
into the stack context and is read there). -/
structure cell_selection_proc where
  init_serv_cell : phy_cell_t
  cell_search_ret : cell_search_result_t
  state : search_state_t
  deriving DecidableEq, Repr

/-- A procedure together with the slot state of its manager
(`srsran::proc_manager_t<T>`): `busy` is set while an unresolved run occupies
the slot. -/
structure proc_manager_t (T : Type) where
  proc : T
  busy : Bool
  deriving DecidableEq, Repr

/-- Mirror of `proc_manager_t::is_busy()`. -/
def proc_manager_t.is_busy {T : Type} (m : proc_manager_t T) : Bool := m.busy

/-- Mirror of `proc_manager_t::is_idle()`. -/
def proc_manager_t.is_idle {T : Type} (m : proc_manager_t T) : Bool := !m.busy

/-- The closures handed to the task scheduler: the lambda of
`cell_selection_proc::then`, which captures the result, and the completion hook
of the setup-request procedure that a trigger schedules. -/
inductive deferred_task where
  | inform_setup_req (proc_result : proc_result_t cell_search_result_t)
  | complete_setup_req (result : proc_state_t)
  deriving DecidableEq, Repr

/-- The procedures a callback list can hold. -/
inductive proc_id where
  | cell_selector
  | setup_req_proc
  deriving DecidableEq, Repr

/-- The part of the stack context `rrc_nr` the procedures read and write. -/
structure rrc_nr where
  plmn_is_selected : Bool
  state : rrc_nr_state_t
  phy_cfg_state : phy_cfg_state_t
  phy_cfg : phy_cfg_t
  dedicated_info_nas : unique_byte_buffer_t
  meas_cells : meas_cell_list
  cell_selector : proc_manager_t cell_selection_proc
  setup_req_proc : proc_manager_t setup_request_proc
  callback_list : List proc_id
  task_sched : List deferred_task
  calls : List Call
  deriving DecidableEq, Repr

/-- The collaborators whose code is outside this file, as the values they return
for an argument in a given stack context; `start_cell_select` gives the serving
cell the PHY leaves behind. -/
structure Env where
  start_cell_select : rrc_nr → cell_select_args_t → meas_cell_nr
  unpack : List Nat → Option cell_group_cfg_s
  apply_cell_group_cfg : rrc_nr → cell_group_cfg_s → Bool
  configure_sk_counter : rrc_nr → Nat → Bool
  apply_radio_bearer_cfg : rrc_nr → radio_bearer_cfg_s → Bool

/-- Append one call to the ghost log. -/
def rrc_nr.log (h : rrc_nr) (c : Call) : rrc_nr :=
  { h with calls := h.calls ++ [c] }

/-- What a procedure method returns: the outcome, the procedure object and the
stack context after the call. -/
structure Ret (T : Type) where
  outcome : proc_outcome_t
  proc : T
  handle : rrc_nr

/-! ## Framework pieces declared outside this file -/

/-- Modelled from the spec: `is_same_cell` is declared in a header that is not
part of the sources at hand.  The spec says the result of a selection is
classified "by comparing pre/post serving cell identity", so the recorded
identity is compared with the identity of the measured cell. -/
def is_same_cell (lhs : phy_cell_t) (rhs : meas_cell_nr) : Bool :=
  decide (lhs = rhs.phy_cell)

/-- Modelled from the spec: `task_sched.defer_task` belongs to the task scheduler,
which is not part of the sources at hand.  Per the spec `defer(task)` "enqueues;
FIFO order preserved", and a deferred task is "never executed synchronously
within the submission call". -/
def defer_task (h : rrc_nr) (t : deferred_task) : rrc_nr :=
  { h with task_sched := h.task_sched ++ [t] }

/-- Modelled from the spec: `callback_list.add_proc` belongs to the procedure
framework, which is not part of the sources at hand.  Per the spec the callback
list "holds the set of currently active procedures", so a procedure whose slot
is not busy is not stored. -/
def add_proc (h : rrc_nr) (id : proc_id) (busy : Bool) : rrc_nr :=
  let h1 := h.log Call.callback_list_add_proc
  if busy then { h1 with callback_list := h1.callback_list ++ [id] } else h1

/-! ## Basic cell selection procedure -/

/-- Mirror of `cell_selection_proc::is_serv_cell_suitable`: the selection
criteria are still to be added, it answers true. -/
def cell_selection_proc.is_serv_cell_suitable (_p : cell_selection_proc) : Bool :=
  true

/-- Mirror of `cell_selection_proc::set_proc_complete`: sets the classified
result on procedure exit. -/
def cell_selection_proc.set_proc_complete (p : cell_selection_proc) (h : rrc_nr) :
    Ret cell_selection_proc :=
  if p.is_serv_cell_suitable then
    { outcome := proc_outcome_t.success
      proc := { p with cell_search_ret :=
        if is_same_cell p.init_serv_cell h.meas_cells.serving_cell
        then cell_search_result_t.same_cell else cell_search_result_t.changed_cell }
      handle := h }
  else
    { outcome := proc_outcome_t.error
      proc := { p with cell_search_ret := cell_search_result_t.no_cell }
      handle := h }

/-- Mirror of `rrc_handle.phy->start_cell_select(cell_cfg)`: the call is logged
and the serving cell is the one the PHY leaves behind. -/
def phy_start_cell_select (env : Env) (h : rrc_nr) (cell_cfg : cell_select_args_t) : rrc_nr :=
  { h with
    meas_cells := { h.meas_cells with serv_cell := env.start_cell_select h cell_cfg }
    calls := h.calls ++ [Call.phy_start_cell_select cell_cfg] }

/-- Mirror of `cell_selection_proc::init`. -/
def cell_selection_proc.init (env : Env) (p : cell_selection_proc) (h : rrc_nr) :
    Ret cell_selection_proc :=
  let p1 := { p with init_serv_cell := h.meas_cells.serving_cell.phy_cell }
  let cell_cfg : cell_select_args_t :=
    { carrier := h.phy_cfg.carrier, ssb_cfg := h.phy_cfg.get_ssb_cfg }
  let h1 := phy_start_cell_select env h cell_cfg
  if p1.is_serv_cell_suitable then
    p1.set_proc_complete h1
  else
    p1.set_proc_complete h1

/-- Mirror of `cell_selection_proc::step`. -/
def cell_selection_proc.step (p : cell_selection_proc) (h : rrc_nr) :
    Ret cell_selection_proc :=
  match p.state with
  | search_state_t.cell_selection => ⟨proc_outcome_t.yield, p, h⟩
  | search_state_t.serv_cell_camp => ⟨proc_outcome_t.yield, p, h⟩
  | search_state_t.cell_config => ⟨proc_outcome_t.yield, p, h⟩
  | search_state_t.cell_search => ⟨proc_outcome_t.yield, p, h⟩

/-- Mirror of `cell_selection_proc::then`: the notification of the connection
request procedure is handed to the task scheduler. -/
def cell_selection_proc.then (_p : cell_selection_proc) (h : rrc_nr)
    (proc_result : proc_result_t cell_search_result_t) : rrc_nr :=
  defer_task h (deferred_task.inform_setup_req proc_result)

/-- Modelled from the spec: `cell_selector.launch()` belongs to the procedure
manager, which is not part of the sources at hand.  Per the spec `launch`
"fails if the slot for that procedure kind is busy; otherwise takes ownership,
calls `init`, and if the result is non-terminal, stores the instance and returns
launched.  If terminal, invokes `then` immediately and does not store anything."
The result handed to `then` carries the classified result of the procedure. -/
def cell_selector_launch (env : Env) (h : rrc_nr) : Bool × rrc_nr :=
  if h.cell_selector.is_busy then
    (false, h.log (Call.cell_selector_launch false))
  else
    let h0 := h.log (Call.cell_selector_launch true)
    let r := cell_selection_proc.init env h0.cell_selector.proc h0
    match r.outcome with
    | proc_outcome_t.success =>
      let h1 := { r.handle with cell_selector := { proc := r.proc, busy := false } }
      (true, r.proc.then h1 (proc_result_t.value r.proc.cell_search_ret))
    | proc_outcome_t.error =>
      let h1 := { r.handle with cell_selector := { proc := r.proc, busy := false } }
      (true, r.proc.then h1 proc_result_t.error)
    | _ =>
      (true, { r.handle with cell_selector := { proc := r.proc, busy := true } })

/-! ## RRC setup request procedure -/

/-- The number of further `step` calls a state can fold into. -/
def state_t.rank : state_t → Nat
  | state_t.config_serving_cell => 1
  | _ => 0

/-- Mirror of `setup_request_proc::init`.  The arguments are stored first; the
payload is moved into the procedure before any precondition is checked. -/
def setup_request_proc.init (env : Env) (p : setup_request_proc) (h : rrc_nr)
    (cause_ : nr_establishment_cause_t) (dedicated_info_nas_ : unique_byte_buffer_t) :
    Ret setup_request_proc :=
  let p1 := { p with cause := cause_, dedicated_info_nas := dedicated_info_nas_ }
  if !h.plmn_is_selected then
    ⟨proc_outcome_t.error, p1, h⟩
  else if h.state ≠ rrc_nr_state_t.RRC_NR_STATE_IDLE then
    ⟨proc_outcome_t.error, p1, h⟩
  else
    let p2 := { p1 with cell_search_ret := cell_search_result_t.no_cell }
    let p3 := { p2 with state := state_t.cell_selection }
    let idle := h.cell_selector.is_idle
    let h1 := h.log (Call.cell_selector_is_idle idle)
    if idle then
      let l := cell_selector_launch env h1
      if !l.1 then
        ⟨proc_outcome_t.error, p3, l.2⟩
      else
        ⟨proc_outcome_t.yield, p3, add_proc l.2 proc_id.cell_selector l.2.cell_selector.is_busy⟩
    else
      ⟨proc_outcome_t.yield, p3, h1⟩

/-- Mirror of `setup_request_proc::step`.  After the serving cell configuration
the state is `wait_t300` and `step` calls itself; that state has no handling
yet, so the call runs to the final `return proc_outcome_t::error`. -/
def setup_request_proc.step (p : setup_request_proc) (h : rrc_nr) : Ret setup_request_proc :=
  if p.state = state_t.cell_selection then
    ⟨proc_outcome_t.yield, p, h⟩
  else if hc : p.state = state_t.config_serving_cell then
    let h1 := { h with phy_cfg_state := phy_cfg_state_t.PHY_CFG_STATE_APPLY_SP_CELL }
    let h2 := h1.log (Call.phy_set_config h1.phy_cfg)
    let h3 := h2.log (Call.send_setup_request p.cause)
    let p1 := { p with state := state_t.wait_t300 }
    setup_request_proc.step p1 h3
  else if p.state = state_t.wait_t300 then
    ⟨proc_outcome_t.error, p, h⟩
  else
    ⟨proc_outcome_t.error, p, h⟩
termination_by p.state.rank
decreasing_by simp [hc, state_t.rank]

/-- Mirror of `setup_request_proc::then`. -/
def setup_request_proc.then (p : setup_request_proc) (h : rrc_nr) (result : proc_state_t) :
    setup_request_proc × rrc_nr :=
  if result.is_error then
    ({ p with dedicated_info_nas := none }, { h with dedicated_info_nas := none })
  else
    (p, h)

/-- Mirror of `setup_request_proc::react` for the cell-selection-complete event.
The camping test is the constant `true` in the source, its other branch is kept. -/
def setup_request_proc.react (p : setup_request_proc) (h : rrc_nr)
    (e : cell_selection_complete_ev) : Ret setup_request_proc :=
  if p.state ≠ state_t.cell_selection then
    ⟨proc_outcome_t.yield, p, h⟩
  else
    match e with
    | proc_result_t.error => ⟨proc_outcome_t.error, p, h⟩
    | proc_result_t.value v =>
      let p1 := { p with cell_search_ret := v }
      if true then
        let p2 := { p1 with state := state_t.config_serving_cell }
        setup_request_proc.step p2 h
      else
        ⟨proc_outcome_t.error, p1, h⟩

/-- Modelled from the spec: `setup_req_proc.trigger(event)` belongs to the
procedure manager, which is not part of the sources at hand.  Per the spec a
trigger is "delivered to the single active instance (if any) subscribed to that
event kind; if `react` resolves the procedure, removes it and schedules the
completion hook through the Task Scheduler (never calls it inline)". -/
def setup_req_proc_trigger (h : rrc_nr) (e : cell_selection_complete_ev) : rrc_nr :=
  let h0 := h.log (Call.setup_req_proc_trigger e)
  if h0.setup_req_proc.is_busy then
    let r := setup_request_proc.react h0.setup_req_proc.proc h0 e
    match r.outcome with
    | proc_outcome_t.success =>
      defer_task { r.handle with setup_req_proc := { proc := r.proc, busy := false } }
        (deferred_task.complete_setup_req (proc_result_t.value ()))
    | proc_outcome_t.error =>
      defer_task { r.handle with setup_req_proc := { proc := r.proc, busy := false } }
        (deferred_task.complete_setup_req proc_result_t.error)
    | _ =>
      { r.handle with setup_req_proc := { proc := r.proc, busy := true } }
  else
    h0

/-- What a deferred task does when the scheduler runs it.  The first case is the
body of the lambda in `cell_selection_proc::then`; the second runs the
completion hook of the setup-request procedure. -/
def deferred_task.run (t : deferred_task) (h : rrc_nr) : rrc_nr :=
  match t with
  | deferred_task.inform_setup_req proc_result =>
    if h.setup_req_proc.is_busy then
      setup_req_proc_trigger h proc_result
    else
      h
  | deferred_task.complete_setup_req result =>
    let r := setup_request_proc.then h.setup_req_proc.proc h result
    { r.2 with setup_req_proc := { r.2.setup_req_proc with proc := r.1 } }

/-! ## Connection setup procedure -/

/-- The members of `rrc_nr::connection_setup_proc`. -/
structure connection_setup_proc where
  dedicated_info_nas : unique_byte_buffer_t
  deriving DecidableEq, Repr

/-- Mirror of `connection_setup_proc::init`: the payload is moved into the
procedure, then the radio bearer and the cell group configuration are applied. -/
def connection_setup_proc.init (env : Env) (p : connection_setup_proc) (h : rrc_nr)
    (radio_bearer_cfg_ : radio_bearer_cfg_s) (cell_group_ : cell_group_cfg_s)
    (dedicated_info_nas_ : unique_byte_buffer_t) : Ret connection_setup_proc := Id.run do
  let p1 := { p with dedicated_info_nas := dedicated_info_nas_ }
  let mut h := h
  let ret := env.apply_radio_bearer_cfg h radio_bearer_cfg_
  h := h.log (Call.apply_radio_bearer_cfg radio_bearer_cfg_ ret)
  if !ret then
    return ⟨proc_outcome_t.error, p1, h⟩
  let ret := env.apply_cell_group_cfg h cell_group_
  h := h.log (Call.apply_cell_group_cfg cell_group_ ret)
  if !ret then
    return ⟨proc_outcome_t.error, p1, h⟩
  return ⟨proc_outcome_t.yield, p1, h⟩

/-- Mirror of `connection_setup_proc::react` for the configuration-complete
event.  `send_con_setup_complete` takes the buffer by value, so
`std::move(dedicated_info_nas)` leaves the member null. -/
def connection_setup_proc.react (p : connection_setup_proc) (h : rrc_nr)
    (config_complete : Bool) : Ret connection_setup_proc :=
  if !config_complete then
    ⟨proc_outcome_t.error, p, h⟩
  else
    ⟨proc_outcome_t.success, { p with dedicated_info_nas := none },
      h.log (Call.send_con_setup_complete p.dedicated_info_nas)⟩

/-- Mirror of `connection_setup_proc::then`: it only logs. -/
def connection_setup_proc.then (p : connection_setup_proc) (h : rrc_nr)
    (_result : proc_state_t) : connection_setup_proc × rrc_nr :=
  (p, h)

/-! ## Reconfiguration without handover -/

/-- Who started a reconfiguration; the constructor of the procedure sets `nr`. -/
inductive reconf_initiator_t where
  | mcg_srb1
  | nr
  deriving DecidableEq, Repr

/-- The alternatives of the critical extensions choice of `rrc_recfg_s`. -/
inductive crit_exts_types where
  | rrc_recfg
  | crit_exts_future
  deriving DecidableEq, Repr

/-- The fields of the reconfiguration IEs that `init` reads; the sk counter sits
three non-critical extensions deep in the source and is kept flat here. -/
structure rrc_recfg_ies_s where
  secondary_cell_group_present : Bool
  secondary_cell_group : List Nat
  sk_counter_present : Bool
  sk_counter : Nat
  radio_bearer_cfg_present : Bool
  radio_bearer_cfg : radio_bearer_cfg_s
  deriving DecidableEq, Repr

/-- The reconfiguration message: the alternative chosen and the IEs read through
`crit_exts.rrc_recfg()`. -/
structure rrc_recfg_s where
  crit_exts_type : crit_exts_types
  rrc_recfg : rrc_recfg_ies_s
  deriving DecidableEq, Repr

/-- The members of `rrc_nr::connection_reconf_no_ho_proc`. -/
structure connection_reconf_no_ho_proc where
  initiator : reconf_initiator_t
  deriving DecidableEq, Repr

/-- Mirror of `connection_reconf_no_ho_proc::init`; `(uint16_t)` is the
reduction modulo `2^16`. -/
def connection_reconf_no_ho_proc.init (env : Env) (p : connection_reconf_no_ho_proc)
    (h : rrc_nr) (initiator_ : reconf_initiator_t) (_endc_release_and_add_r15 : Bool)
    (rrc_nr_reconf : rrc_recfg_s) : Ret connection_reconf_no_ho_proc := Id.run do
  let p1 := { p with initiator := initiator_ }
  let mut h := h
  if rrc_nr_reconf.rrc_recfg.secondary_cell_group_present then
    if rrc_nr_reconf.crit_exts_type ≠ crit_exts_types.rrc_recfg then
      return ⟨proc_outcome_t.error, p1, h⟩
    match env.unpack rrc_nr_reconf.rrc_recfg.secondary_cell_group with
    | none => return ⟨proc_outcome_t.error, p1, h⟩
    | some cell_group_cfg =>
      let ret := env.apply_cell_group_cfg h cell_group_cfg
      h := h.log (Call.apply_cell_group_cfg cell_group_cfg ret)
      if !ret then
        return ⟨proc_outcome_t.error, p1, h⟩
  if rrc_nr_reconf.rrc_recfg.sk_counter_present then
    let counter := rrc_nr_reconf.rrc_recfg.sk_counter % 2 ^ 16
    let ret := env.configure_sk_counter h counter
    h := h.log (Call.configure_sk_counter counter ret)
    if !ret then
      return ⟨proc_outcome_t.error, p1, h⟩
  if rrc_nr_reconf.rrc_recfg.radio_bearer_cfg_present then
    let ret := env.apply_radio_bearer_cfg h rrc_nr_reconf.rrc_recfg.radio_bearer_cfg
    h := h.log (Call.apply_radio_bearer_cfg rrc_nr_reconf.rrc_recfg.radio_bearer_cfg ret)
    if !ret then
      return ⟨proc_outcome_t.error, p1, h⟩
  return ⟨proc_outcome_t.success, p1, h⟩

/-- Mirror of `connection_reconf_no_ho_proc::react` for the
configuration-complete event. -/
def connection_reconf_no_ho_proc.react (p : connection_reconf_no_ho_proc) (h : rrc_nr)
    (config_complete : Bool) : Ret connection_reconf_no_ho_proc :=
  if !config_complete then
    ⟨proc_outcome_t.error, p, h⟩
  else
    ⟨proc_outcome_t.success, p, h⟩

/-- Mirror of `connection_reconf_no_ho_proc::then`: on success the EUTRA RRC is
told that the reconfiguration completed, on failure the notification depends on
the initiator recorded by `init`. -/
def connection_reconf_no_ho_proc.then (p : connection_reconf_no_ho_proc) (h : rrc_nr)
    (result : proc_state_t) : rrc_nr :=
  if result.is_success then
    h.log (Call.nr_rrc_con_reconfig_complete true)
  else
    match p.initiator with
    | reconf_initiator_t.mcg_srb1 => h.log Call.nr_notify_reconfiguration_failure
    | _ => h

/-- The position of an apply operation in the order of `init`. -/
def Call.stage : Call → Nat
  | Call.apply_cell_group_cfg _ _ => 0
  | Call.configure_sk_counter _ _ => 1
  | Call.apply_radio_bearer_cfg _ _ => 2
  | _ => 3

/-- The value an apply operation returned; calls without a result count as true. -/
def Call.ret : Call → Bool
  | Call.apply_cell_group_cfg _ r => r
  | Call.configure_sk_counter _ r => r
  | Call.apply_radio_bearer_cfg _ r => r
  | _ => true

/-! ## Sample contexts -/

/-- A collaborator environment in which every apply succeeds, every blob decodes
and the PHY keeps the serving cell. -/
def env_ok : Env where
  start_cell_select := fun h _ => h.meas_cells.serving_cell
  unpack := fun b => some b.length
  apply_cell_group_cfg := fun _ _ => true
  configure_sk_counter := fun _ _ => true
  apply_radio_bearer_cfg := fun _ _ => true

/-- A collaborator environment in which the PHY moves to another cell and the
sk counter is refused. -/
def env_move : Env where
  start_cell_select := fun _ _ => ⟨⟨7, 3000⟩, -90⟩
  unpack := fun b => if b = [] then none else some b.length
  apply_cell_group_cfg := fun _ _ => true
  configure_sk_counter := fun _ _ => false
  apply_radio_bearer_cfg := fun _ _ => true

/-- A fresh setup-request procedure object. -/
def setup_req_0 : setup_request_proc :=
  { state := state_t.cell_selection, cause := 0, dedicated_info_nas := none,
    cell_search_ret := cell_search_result_t.no_cell }

/-- A fresh cell-selection procedure object. -/
def cell_sel_0 : cell_selection_proc :=
  { init_serv_cell := ⟨0, 0⟩, cell_search_ret := cell_search_result_t.no_cell,
    state := search_state_t.cell_selection }

/-- An idle stack context with a PLMN selected, camping on cell 1. -/
def rrc_0 : rrc_nr :=
  { plmn_is_selected := true
    state := rrc_nr_state_t.RRC_NR_STATE_IDLE
    phy_cfg_state := phy_cfg_state_t.PHY_CFG_STATE_NONE
    phy_cfg := ⟨5, 9⟩
    dedicated_info_nas := some [1, 2]
    meas_cells := ⟨⟨⟨1, 2000⟩, -80⟩⟩
    cell_selector := ⟨cell_sel_0, false⟩
    setup_req_proc := ⟨setup_req_0, false⟩
    callback_list := []
    task_sched := []
    calls := [] }

/-- A stack context like `rrc_0` in which no PLMN is selected. -/
def rrc_no_plmn : rrc_nr := { rrc_0 with plmn_is_selected := false }

/-- A stack context like `rrc_0` in which a cell selection is already running. -/
def rrc_selecting : rrc_nr := { rrc_0 with cell_selector := ⟨cell_sel_0, true⟩ }

/-- A setup-request procedure object that waits for the response. -/
def setup_req_waiting : setup_request_proc :=
  { setup_req_0 with state := state_t.wait_t300 }

/-- Whether a logged call is a launch of the cell-selection procedure. -/
def Call.is_launch : Call → Bool
  | Call.cell_selector_launch _ => true
  | _ => false

/-- A reconfiguration message with all three changes present. -/
def reconf_all : rrc_recfg_s :=
  ⟨crit_exts_types.rrc_recfg, ⟨true, [1], true, 70000, true, 4⟩⟩

/-- A fresh reconfiguration procedure object. -/
def reconf_0 : connection_reconf_no_ho_proc := ⟨reconf_initiator_t.nr⟩

/-- Whether a logged call is a trigger of the setup-request procedure. -/
def Call.is_trigger : Call → Bool
  | Call.setup_req_proc_trigger _ => true
  | _ => false

/-- Whether a logged call is one of the three apply operations. -/
def Call.is_apply : Call → Bool
  | Call.apply_cell_group_cfg _ _ => true
  | Call.configure_sk_counter _ _ => true
  | Call.apply_radio_bearer_cfg _ _ => true
  | _ => false

/-- A collaborator environment in which the cell group configuration is refused. -/
def env_no_cell_group : Env where
  start_cell_select := fun h _ => h.meas_cells.serving_cell
  unpack := fun b => some b.length
  apply_cell_group_cfg := fun _ _ => false
  configure_sk_counter := fun _ _ => true
  apply_radio_bearer_cfg := fun _ _ => true

/-- A collaborator environment in which the radio bearer configuration is refused. -/
def env_no_radio_bearer : Env where
  start_cell_select := fun h _ => h.meas_cells.serving_cell
  unpack := fun b => some b.length
  apply_cell_group_cfg := fun _ _ => true
  configure_sk_counter := fun _ _ => true
  apply_radio_bearer_cfg := fun _ _ => false

/-- Whether a logged call is a `send_con_setup_complete`. -/
def Call.is_setup_complete : Call → Bool
  | Call.send_con_setup_complete _ => true
  | _ => false

/-- A reconfiguration message whose cell group blob is empty. -/
def reconf_empty_blob : rrc_recfg_s :=
  ⟨crit_exts_types.rrc_recfg, ⟨true, [], true, 5, true, 4⟩⟩

/-- A fresh connection setup procedure object. -/
def con_setup_0 : connection_setup_proc := ⟨none⟩

/-- A stack context like `rrc_0` in which the setup-request procedure is running
and waits for the cell selection. -/
def rrc_requesting : rrc_nr := { rrc_0 with setup_req_proc := ⟨setup_req_0, true⟩ }

/-- The calls a method appended to the log: those of the context `h2` after the
call that come after the ones of the context `h1` before it. -/
def new_calls (h1 h2 : rrc_nr) : List Call := h2.calls.drop h1.calls.length

end srsue

/-!
# PRACH: a shallow embedding

Embedding of `lte/phy/lib/prach/src/prach.c`.  Values of type `uint32_t` are
natural numbers, reduced modulo `2^32` where the source computes with them.  A
read or write outside an array and a division by zero have no defined result in
C: the functions return in `Except Fault`, the fault naming what went wrong.
Complex samples are kept symbolic and the DFT is a collaborator.
-/

namespace liblte

/-! ## Constants and reference tables -/

/-- Number of prach sequences available. -/
def N_SEQS : Nat := 64

/-- Number of subcarriers per resource block. -/
def N_RB_SC : Nat := 12

/-- Normal subcarrier spacing. -/
def DELTA_F : Nat := 15000

/-- PRACH subcarrier spacing. -/
def DELTA_F_RA : Nat := 1250

/-- PRACH subcarrier spacing for format 4. -/
def DELTA_F_RA_4 : Nat := 7500

/-- PRACH phi parameter. -/
def PHI : Nat := 7

/-- Max number of root sequences. -/
def MAX_ROOTS : Nat := 838

/-- Table 5.7.1-1 T_cp for preamble formats. -/
def prach_Tcp : List Nat := [3168, 21024, 6240, 21024, 448]

/-- Table 5.7.1-1 T_seq for preamble formats. -/
def prach_Tseq : List Nat := [24576, 24576, 2 * 24576, 2 * 24576, 4096]

/-- Table 5.7.2-2, N_cs values for unrestricted sets. -/
def prach_Ncs_unrestricted : List Nat :=
  [0, 13, 15, 18, 22, 26, 32, 38, 46, 59, 76, 93, 119, 167, 279, 419]

/-- Table 5.7.2-2, N_cs values for restricted sets. -/
def prach_Ncs_restricted : List Nat :=
  [15, 18, 22, 26, 32, 38, 46, 55, 68, 82, 100, 128, 158, 202, 237]

/-- Table 5.7.2-3, N_cs values for preamble format 4. -/
def prach_Ncs_format4 : List Nat := [2, 4, 6, 8, 10, 12, 15]

/-- Table 5.7.2-4, root ZC sequence order. -/
def prach_zc_roots : List Nat :=
  [129, 710, 140, 699, 120, 719, 210, 629, 168, 671, 84, 755,
   105, 734, 93, 746, 70, 769, 60, 779, 2, 837, 1, 838,
   56, 783, 112, 727, 148, 691, 80, 759, 42, 797, 40, 799,
   35, 804, 73, 766, 146, 693, 31, 808, 28, 811, 30, 809,
   27, 812, 29, 810, 24, 815, 48, 791, 68, 771, 74, 765,
   178, 661, 136, 703, 86, 753, 78, 761, 43, 796, 39, 800,
   20, 819, 21, 818, 95, 744, 202, 637, 190, 649, 181, 658,
   137, 702, 125, 714, 151, 688, 217, 622, 128, 711, 142, 697,
   122, 717, 203, 636, 118, 721, 110, 729, 89, 750, 103, 736,
   61, 778, 55, 784, 15, 824, 14, 825, 12, 827, 23, 816,
   34, 805, 37, 802, 46, 793, 207, 632, 179, 660, 145, 694,
   130, 709, 223, 616, 228, 611, 227, 612, 132, 707, 133, 706,
   143, 696, 135, 704, 161, 678, 201, 638, 173, 666, 106, 733,
   83, 756, 91, 748, 66, 773, 53, 786, 10, 829, 9, 830,
   7, 832, 8, 831, 16, 823, 47, 792, 64, 775, 57, 782,
   104, 735, 101, 738, 108, 731, 208, 631, 184, 655, 197, 642,
   191, 648, 121, 718, 141, 698, 149, 690, 216, 623, 218, 621,
   152, 687, 144, 695, 134, 705, 138, 701, 199, 640, 162, 677,
   176, 663, 119, 720, 158, 681, 164, 675, 174, 665, 171, 668,
   170, 669, 87, 752, 169, 670, 88, 751, 107, 732, 81, 758,
   82, 757, 100, 739, 98, 741, 71, 768, 59, 780, 65, 774,
   50, 789, 49, 790, 26, 813, 17, 822, 13, 826, 6, 833,
   5, 834, 33, 806, 51, 788, 75, 764, 99, 740, 96, 743,
   97, 742, 166, 673, 172, 667, 175, 664, 187, 652, 163, 676,
   185, 654, 200, 639, 114, 725, 189, 650, 115, 724, 194, 645,
   195, 644, 192, 647, 182, 657, 157, 682, 156, 683, 211, 628,
   154, 685, 123, 716, 139, 700, 212, 627, 153, 686, 213, 626,
   215, 624, 150, 689, 225, 614, 224, 615, 221, 618, 220, 619,
   127, 712, 147, 692, 124, 715, 193, 646, 205, 634, 206, 633,
   116, 723, 160, 679, 186, 653, 167, 672, 79, 760, 85, 754,
   77, 762, 92, 747, 58, 781, 62, 777, 69, 770, 54, 785,
   36, 803, 32, 807, 25, 814, 18, 821, 11, 828, 4, 835,
   3, 836, 19, 820, 22, 817, 41, 798, 38, 801, 44, 795,
   52, 787, 45, 794, 63, 776, 67, 772, 72, 767, 76, 763,
   94, 745, 102, 737, 90, 749, 109, 730, 165, 674, 111, 728,
   209, 630, 204, 635, 117, 722, 188, 651, 159, 680, 198, 641,
   113, 726, 183, 656, 180, 659, 177, 662, 196, 643, 155, 684,
   214, 625, 126, 713, 131, 708, 219, 620, 222, 617, 226, 613,
   230, 609, 232, 607, 262, 577, 252, 587, 418, 421, 416, 423,
   413, 426, 411, 428, 376, 463, 395, 444, 283, 556, 285, 554,
   379, 460, 390, 449, 363, 476, 384, 455, 388, 451, 386, 453,
   361, 478, 387, 452, 360, 479, 310, 529, 354, 485, 328, 511,
   315, 524, 337, 502, 349, 490, 335, 504, 324, 515, 323, 516,
   320, 519, 334, 505, 359, 480, 295, 544, 385, 454, 292, 547,
   291, 548, 381, 458, 399, 440, 380, 459, 397, 442, 369, 470,
   377, 462, 410, 429, 407, 432, 281, 558, 414, 425, 247, 592,
   277, 562, 271, 568, 272, 567, 264, 575, 259, 580, 237, 602,
   239, 600, 244, 595, 243, 596, 275, 564, 278, 561, 250, 589,
   246, 593, 417, 422, 248, 591, 394, 445, 393, 446, 370, 469,
   365, 474, 300, 539, 299, 540, 364, 475, 362, 477, 298, 541,
   312, 527, 313, 526, 314, 525, 353, 486, 352, 487, 343, 496,
   327, 512, 350, 489, 326, 513, 319, 520, 332, 507, 333, 506,
   348, 491, 347, 492, 322, 517, 330, 509, 338, 501, 341, 498,
   340, 499, 342, 497, 301, 538, 366, 473, 401, 438, 371, 468,
   408, 431, 375, 464, 249, 590, 269, 570, 238, 601, 234, 605,
   257, 582, 273, 566, 255, 584, 254, 585, 245, 594, 251, 588,
   412, 427, 372, 467, 282, 557, 403, 436, 396, 443, 392, 447,
   391, 448, 382, 457, 389, 450, 294, 545, 297, 542, 311, 528,
   344, 495, 345, 494, 318, 521, 331, 508, 325, 514, 321, 518,
   346, 493, 339, 500, 351, 488, 306, 533, 289, 550, 400, 439,
   378, 461, 374, 465, 415, 424, 270, 569, 241, 598, 231, 608,
   260, 579, 268, 571, 276, 563, 409, 430, 398, 441, 290, 549,
   304, 535, 308, 531, 358, 481, 316, 523, 293, 546, 288, 551,
   284, 555, 368, 471, 253, 586, 256, 583, 263, 576, 242, 597,
   274, 565, 402, 437, 383, 456, 357, 482, 329, 510, 317, 522,
   307, 532, 286, 553, 287, 552, 266, 573, 261, 578, 236, 603,
   303, 536, 356, 483, 355, 484, 405, 434, 404, 435, 406, 433,
   235, 604, 267, 572, 302, 537, 309, 530, 265, 574, 233, 606,
   367, 472, 296, 543, 336, 503, 305, 534, 373, 466, 280, 559,
   279, 560, 419, 420, 240, 599, 258, 581, 229, 610]

/-- Table 5.7.2-5, root ZC sequence order for preamble format 4. -/
def prach_zc_roots_format4 : List Nat :=
  [1, 138, 2, 137, 3, 136, 4, 135, 5, 134, 6, 133,
   7, 132, 8, 131, 9, 130, 10, 129, 11, 128, 12, 127,
   13, 126, 14, 125, 15, 124, 16, 123, 17, 122, 18, 121,
   19, 120, 20, 119, 21, 118, 22, 117, 23, 116, 24, 115,
   25, 114, 26, 113, 27, 112, 28, 111, 29, 110, 30, 109,
   31, 108, 32, 107, 33, 106, 34, 105, 35, 104, 36, 103,
   37, 102, 38, 101, 39, 100, 40, 99, 41, 98, 42, 97,
   43, 96, 44, 95, 45, 94, 46, 93, 47, 92, 48, 91,
   49, 90, 50, 89, 51, 88, 52, 87, 53, 86, 54, 85,
   55, 84, 56, 83, 57, 82, 58, 81, 59, 80, 60, 79,
   61, 78, 62, 77, 63, 76, 64, 75, 65, 74, 66, 73,
   67, 72, 68, 71, 69, 70]

/-! ## Machine arithmetic and faults -/

/-- The arrays of the source. -/
inductive Table where
  | prach_Tcp
  | prach_Tseq
  | prach_Ncs_unrestricted
  | prach_Ncs_restricted
  | prach_Ncs_format4
  | prach_zc_roots
  | prach_zc_roots_format4
  | root
  | root_seqs_idx
  | ifft_in
  | ifft_out
  | dft_seqs
  | prach_bins
  | signal
  deriving DecidableEq, Repr

/-- What leaves a C execution without a defined result. -/
inductive Fault where
  | out_of_bounds (t : Table) (index : Nat)
  | division_by_zero
  | conversion_overflow
  | null_pointer
  deriving DecidableEq, Repr

/-- Reduction of a natural number to `uint32_t`. -/
def u32 (x : Nat) : Nat := x % 2 ^ 32

/-- Addition in `uint32_t`. -/
def u32_add (a b : Nat) : Nat := u32 (a + b)

/-- Multiplication in `uint32_t`. -/
def u32_mul (a b : Nat) : Nat := u32 (a * b)

/-- Subtraction in `uint32_t`: it wraps modulo `2^32` when `a < b`. -/
def u32_sub (a b : Nat) : Nat := (u32 a + 2 ^ 32 - u32 b) % 2 ^ 32

/-- Division in `uint32_t`; dividing by zero is a fault. -/
def u32_div (a b : Nat) : Except Fault Nat :=
  if b = 0 then Except.error Fault.division_by_zero else Except.ok (a / b)

/-- Remainder in `uint32_t`; dividing by zero is a fault. -/
def u32_mod (a b : Nat) : Except Fault Nat :=
  if b = 0 then Except.error Fault.division_by_zero else Except.ok (a % b)

/-- Read of entry `i` of a table; an index past the end is a fault. -/
def read (t : Table) (tbl : List Nat) (i : Nat) : Except Fault Nat :=
  match tbl[i]? with
  | some x => Except.ok x
  | none => Except.error (Fault.out_of_bounds t i)


/-! ## Data model -/

/-- A complex sample, kept symbolic: a sample whose value is not known to the
model, named by a tag, the sample 0, or the sample `cexp(-i π u j (j+1) / N_zc)` of a
Zadoff-Chu root sequence. -/
inductive cf_t where
  | raw (tag : Nat)
  | zero
  | zc (u j N_zc : Nat)
  deriving DecidableEq, Repr

/-- A DFT plan: its size, its direction and the two options set on it; `valid`
is false for a plan whose creation failed. -/
structure dft_plan_t where
  size : Nat
  forward : Bool
  mirror : Bool
  norm : Bool
  valid : Bool
  deriving DecidableEq, Repr

/-- A heap buffer of samples: its length and its content. -/
structure buf_t where
  size : Nat
  data : Nat → cf_t

/-- The members of `prach_t` that `prach.c` uses.  Buffers that are only
allocated here are kept as their length. -/
structure prach_t where
  f : Nat
  rsi : Nat
  hs : Bool
  zczc : Nat
  N_zc : Nat
  N_cs : Nat
  N_roots : Nat
  root_seqs_idx : Nat → Nat
  seqs : Nat → Nat → cf_t
  dft_seqs : Nat → Nat → cf_t
  prach_bins : Option buf_t
  corr_spec : Option Nat
  corr : Option Nat
  zc_fft : Option dft_plan_t
  zc_ifft : Option dft_plan_t
  N_ifft_ul : Nat
  N_ifft_prach : Nat
  ifft_in : Option buf_t
  ifft_out : Option buf_t
  ifft : Option dft_plan_t
  fft : Option dft_plan_t
  N_seq : Nat
  N_cp : Nat

/-- The DFT library, whose code is outside this file: whether creating a plan of
a size and direction fails, and what running a plan returns for an input. -/
structure dft_env where
  dft_plan : Nat → Bool → Bool
  dft_run : dft_plan_t → (Nat → cf_t) → (Nat → cf_t)

/-- The values the functions return: the two named codes that `prach.c` uses and
a literal integer. -/
inductive ret_t where
  | LIBLTE_SUCCESS
  | LIBLTE_ERROR
  | LIBLTE_ERROR_INVALID_INPUTS
  | literal (n : Int)
  deriving DecidableEq, Repr

/-- The local variables of `prach_gen_seqs`. -/
structure gen_seqs_vars where
  u : Nat
  v : Nat
  v_max : Nat
  p_ : Nat
  d_u : Nat
  d_start : Nat
  N_shift : Nat
  N_neg_shift : Nat
  N_group : Nat
  C_v : Nat
  root : Nat → cf_t

/-! ## The functions of `prach.c` -/

/-- Mirror of `prach_get_rb_ul`; the `switch` is a chain of comparisons. -/
def prach_get_rb_ul (N_ifft_ul : Nat) : Nat :=
  if N_ifft_ul = 128 then 6
  else if N_ifft_ul = 256 then 15
  else if N_ifft_ul = 512 then 25
  else if N_ifft_ul = 1024 then 50
  else if N_ifft_ul = 1536 then 75
  else if N_ifft_ul = 2048 then 100
  else 0

/-- The search loop of the high-speed branch:
`for(p_=1; p_<=N_zc; p_++) if(((p_*u) % N_zc) == 1) break;`.  The loop runs at
most `N_zc` times from `p_ = 1`; with that many steps of `fuel` the value
returned is the one the loop leaves in `p_`. -/
def search_p (u N_zc : Nat) : Nat → Nat → Nat
  | 0, p_ => p_
  | fuel + 1, p_ =>
    if p_ ≤ N_zc then
      if u32_mul p_ u % N_zc = 1 then p_ else search_p u N_zc fuel (u32 (p_ + 1))
    else p_

/-- The values the high-speed branch of `prach_gen_seqs` computes for a root. -/
structure hs_vars where
  p_ : Nat
  d_u : Nat
  N_shift : Nat
  d_start : Nat
  N_group : Nat
  N_neg_shift : Nat
  v_max : Nat
  deriving DecidableEq, Repr

/-- The high-speed branch of `prach_gen_seqs` ("Determine v_max", `p->hs` set):
all values are `uint32_t`, so a difference wraps instead of getting negative
and the tests `N_neg_shift < 0` never hold. -/
def hs_v_max (N_zc N_cs u : Nat) : Except Fault hs_vars := do
  let p_ := search_p u N_zc N_zc 1
  let d_u := if 0 ≤ p_ ∧ p_ < N_zc / 2 then p_ else u32_sub N_zc p_
  if N_cs ≤ d_u ∧ d_u < N_zc / 3 then
    let N_shift ← u32_div d_u N_cs
    let d_start := u32_add (u32_mul 2 d_u) (u32_mul N_shift N_cs)
    let N_group ← u32_div N_zc d_start
    let N_neg_shift ← u32_div (u32_sub (u32_sub N_zc (u32_mul 2 d_u)) (u32_mul N_group d_start)) N_cs
    let N_neg_shift := if N_neg_shift < 0 then 0 else N_neg_shift
    return ⟨p_, d_u, N_shift, d_start, N_group, N_neg_shift,
      u32_sub (u32_add (u32_mul N_shift N_group) N_neg_shift) 1⟩
  else
    let N_shift ← u32_div (u32_sub N_zc (u32_mul 2 d_u)) N_cs
    let d_start := u32_add (u32_sub N_zc (u32_mul 2 d_u)) (u32_mul N_shift N_cs)
    let N_group ← u32_div d_u d_start
    let N_neg_shift ← u32_div (u32_sub d_u (u32_mul N_group d_start)) N_cs
    let N_neg_shift := if N_neg_shift < 0 then 0 else N_neg_shift
    let N_neg_shift := if N_neg_shift > N_shift then N_shift else N_neg_shift
    return ⟨p_, d_u, N_shift, d_start, N_group, N_neg_shift,
      u32_sub (u32_add (u32_mul N_shift N_group) N_neg_shift) 1⟩

/-- One pass of the loop of `prach_gen_seqs`, for sequence `i`. -/
def prach_gen_seqs_iter (i : Nat) (p : prach_t) (l : gen_seqs_vars) :
    Except Fault (prach_t × gen_seqs_vars) := do
  let mut p := p
  let mut l := l
  if l.v > l.v_max then
    -- Get a new root sequence
    let u ← if 4 = p.f then
        read Table.prach_zc_roots_format4 prach_zc_roots_format4 (u32_add p.rsi p.N_roots)
      else
        read Table.prach_zc_roots prach_zc_roots (u32_add p.rsi p.N_roots)
    if 839 < p.N_zc then
      throw (Fault.out_of_bounds Table.root 839)
    let N_zc := p.N_zc
    let old := l.root
    l := { l with u := u, root := fun j => if j < N_zc then cf_t.zc u j N_zc else old j }
    if N_SEQS ≤ p.N_roots then
      throw (Fault.out_of_bounds Table.root_seqs_idx p.N_roots)
    let idx := p.root_seqs_idx
    let n := p.N_roots
    p := { p with root_seqs_idx := fun k => if k = n then i else idx k, N_roots := u32 (n + 1) }
    -- Determine v_max
    if p.hs then
      let h ← hs_v_max p.N_zc p.N_cs u
      l := { l with p_ := h.p_, d_u := h.d_u, N_shift := h.N_shift, d_start := h.d_start,
                    N_group := h.N_group, N_neg_shift := h.N_neg_shift, v_max := h.v_max }
    else
      if 0 = p.N_cs then
        l := { l with v_max := 0 }
      else
        l := { l with v_max := u32_sub (p.N_zc / p.N_cs) 1 }
    l := { l with v := 0 }
  -- Shift root and add to set
  if p.hs then
    let q ← u32_div l.v l.N_shift
    let r ← u32_mod l.v l.N_shift
    let x := l.d_start * q + u32_mul r p.N_cs
    if 2 ^ 32 ≤ x then
      throw Fault.conversion_overflow
    l := { l with C_v := x }
  else
    l := { l with C_v := u32_mul l.v p.N_cs }
  let N_zc := p.N_zc
  let C_v := l.C_v
  let root := l.root
  let seqs := p.seqs
  p := { p with seqs := fun a j => if a = i ∧ j < N_zc then root (u32 (j + C_v) % N_zc) else seqs a j }
  l := { l with v := u32 (l.v + 1) }
  return (p, l)

/-- The loop `for(int i=0;i<N_SEQS;i++)` of `prach_gen_seqs`: `n` passes are
left, the next one is for sequence `i`. -/
def prach_gen_seqs_loop : Nat → Nat → prach_t → gen_seqs_vars →
    Except Fault (prach_t × gen_seqs_vars)
  | 0, _, p, l => Except.ok (p, l)
  | n + 1, i, p, l =>
    match prach_gen_seqs_iter i p l with
    | Except.error e => Except.error e
    | Except.ok (p1, l1) => prach_gen_seqs_loop n (i + 1) p1 l1

/-- The initial values of the local variables of `prach_gen_seqs`; the array
`root` is not initialised. -/
def gen_seqs_vars_0 : gen_seqs_vars :=
  { u := 0, v := 1, v_max := 0, p_ := 0, d_u := 0, d_start := 0, N_shift := 0,
    N_neg_shift := 0, N_group := 0, C_v := 0, root := fun j => cf_t.raw j }

/-- Mirror of `prach_gen_seqs`; it returns 0. -/
def prach_gen_seqs (p : prach_t) : Except Fault (Int × prach_t) :=
  match prach_gen_seqs_loop N_SEQS 0 p gen_seqs_vars_0 with
  | Except.error e => Except.error e
  | Except.ok (p1, _) => Except.ok (0, p1)


/-- A freshly allocated buffer of `n` samples; its content is not initialised. -/
def malloc (n : Nat) : buf_t := { size := n, data := fun k => cf_t.raw k }

/-- The length of the PRACH IFFT that `prach_init` stores in `N_ifft_prach`. -/
def prach_N_ifft_prach (preamble_format N_ifft_ul : Nat) : Nat :=
  if 4 = preamble_format then
    u32_mul N_ifft_ul DELTA_F / DELTA_F_RA_4
  else
    u32_mul N_ifft_ul DELTA_F / DELTA_F_RA

/-- Mirror of `prach_init`.  A null `p` is `none`. -/
def prach_init (env : dft_env) (p : Option prach_t) (N_ifft_ul preamble_format
    root_seq_index : Nat) (high_speed_flag : Bool) (zero_corr_zone_config : Nat) :
    Except Fault (ret_t × Option prach_t) := do
  match p with
  | none => return (ret_t.LIBLTE_ERROR, none)
  | some p0 =>
    if N_ifft_ul < 2049 ∧ preamble_format < 4 ∧ root_seq_index < MAX_ROOTS
        ∧ zero_corr_zone_config < 16 then
      let mut p := { p0 with f := preamble_format, rsi := root_seq_index,
                             hs := high_speed_flag, zczc := zero_corr_zone_config }
      -- Determine N_zc and N_cs
      if 4 = preamble_format then
        let n ← read Table.prach_Ncs_format4 prach_Ncs_format4 p.zczc
        p := { p with N_zc := 139, N_cs := n }
      else
        if p.hs then
          let n ← read Table.prach_Ncs_restricted prach_Ncs_restricted p.zczc
          p := { p with N_zc := 839, N_cs := n }
        else
          let n ← read Table.prach_Ncs_unrestricted prach_Ncs_unrestricted p.zczc
          p := { p with N_zc := 839, N_cs := n }
      -- Set up containers
      p := { p with prach_bins := some (malloc p.N_zc), corr_spec := some p.N_zc,
                    corr := some p.N_zc }
      -- Set up ZC FFTS
      if env.dft_plan p.N_zc true then
        return (ret_t.LIBLTE_ERROR, some { p with zc_fft := some ⟨p.N_zc, true, false, false, false⟩ })
      let zc_fft : dft_plan_t := ⟨p.N_zc, true, true, true, true⟩
      p := { p with zc_fft := some zc_fft }
      if env.dft_plan p.N_zc false then
        return (ret_t.LIBLTE_ERROR, some { p with zc_ifft := some ⟨p.N_zc, false, false, false, false⟩ })
      p := { p with zc_ifft := some ⟨p.N_zc, false, true, true, true⟩ }
      -- Generate our 64 sequences
      p := { p with N_roots := 0 }
      let g ← prach_gen_seqs p
      p := g.2
      -- Generate sequence FFTs
      let seqs := p.seqs
      let dft_seqs := p.dft_seqs
      let N_zc := p.N_zc
      p := { p with dft_seqs := fun i k =>
        if i < N_SEQS ∧ k < N_zc then env.dft_run zc_fft (seqs i) k else dft_seqs i k }
      -- Create our FFT objects and buffers
      p := { p with N_ifft_ul := N_ifft_ul }
      p := { p with N_ifft_prach := prach_N_ifft_prach preamble_format p.N_ifft_ul }
      p := { p with ifft_in := some (malloc p.N_ifft_prach),
                    ifft_out := some (malloc p.N_ifft_prach) }
      if env.dft_plan p.N_ifft_prach false then
        return (ret_t.literal (-1), some { p with ifft := some ⟨p.N_ifft_prach, false, false, false, false⟩ })
      p := { p with ifft := some ⟨p.N_ifft_prach, false, true, true, true⟩ }
      if env.dft_plan p.N_ifft_prach true then
        return (ret_t.literal (-1), some { p with fft := some ⟨p.N_ifft_prach, true, false, false, false⟩ })
      p := { p with fft := some ⟨p.N_ifft_prach, true, true, true, true⟩ }
      let Tseq ← read Table.prach_Tseq prach_Tseq p.f
      let Tcp ← read Table.prach_Tcp prach_Tcp p.f
      p := { p with N_seq := u32_mul Tseq p.N_ifft_ul / 2048,
                    N_cp := u32_mul Tcp p.N_ifft_ul / 2048 }
      return (ret_t.LIBLTE_SUCCESS, some p)
    else
      return (ret_t.LIBLTE_ERROR, some p0)

/-- The first of the parameters that `prach_gen` and `prach_detect` calculate:
`k_0 = freq_offset*N_RB_SC - N_rb_ul*N_RB_SC/2 + p->N_ifft_ul/2` in `uint32_t`. -/
def prach_k_0 (N_ifft_ul freq_offset : Nat) : Nat :=
  u32_add
    (u32_sub (u32_mul freq_offset N_RB_SC) (u32_mul (prach_get_rb_ul N_ifft_ul) N_RB_SC / 2))
    (N_ifft_ul / 2)

/-- The last of the parameters that `prach_gen` and `prach_detect` calculate:
`begin = PHI + (K*k_0) + (K/2)` with `K = DELTA_F/DELTA_F_RA`, in `uint32_t`. -/
def prach_begin (N_ifft_ul freq_offset : Nat) : Nat :=
  u32_add (u32_add PHI (u32_mul (DELTA_F / DELTA_F_RA) (prach_k_0 N_ifft_ul freq_offset)))
    (DELTA_F / DELTA_F_RA / 2)

/-- A loop `for(int i=0;i<n;i++) dst[fdst(i)] = src[fsrc(i)];`: `n` passes are
left, the next one is for `i`.  An index outside either buffer is a fault. -/
def copy_loop (tsrc tdst : Table) (src : buf_t) (fsrc fdst : Nat → Nat) :
    Nat → Nat → buf_t → Except Fault buf_t
  | 0, _, dst => Except.ok dst
  | n + 1, i, dst =>
    if src.size ≤ fsrc i then
      Except.error (Fault.out_of_bounds tsrc (fsrc i))
    else if dst.size ≤ fdst i then
      Except.error (Fault.out_of_bounds tdst (fdst i))
    else
      copy_loop tsrc tdst src fsrc fdst n (i + 1)
        { dst with data := fun k => if k = fdst i then src.data (fsrc i) else dst.data k }

/-- Mirror of `prach_gen`.  A null pointer is `none`; the signal buffer comes
with its length. -/
def prach_gen (env : dft_env) (p : Option prach_t) (seq_index freq_offset : Nat)
    (signal : Option buf_t) : Except Fault (ret_t × Option prach_t × Option buf_t) := do
  match p, signal with
  | some p, some signal =>
    if seq_index < N_SEQS then
      -- Calculate parameters
      let begin_ := prach_begin p.N_ifft_ul freq_offset
      -- Map dft-precoded sequence to ifft bins
      let some ifft_in := p.ifft_in | throw Fault.null_pointer
      if ifft_in.size < p.N_ifft_prach then
        throw (Fault.out_of_bounds Table.ifft_in ifft_in.size)
      let N_ifft_prach := p.N_ifft_prach
      let cleared : buf_t :=
        { ifft_in with data := fun k => if k < N_ifft_prach then cf_t.zero else ifft_in.data k }
      let ifft_in ← copy_loop Table.dft_seqs Table.ifft_in ⟨839, p.dft_seqs seq_index⟩
        (fun i => i) (fun i => u32_add begin_ i) p.N_zc 0 cleared
      let some ifft := p.ifft | throw Fault.null_pointer
      let some ifft_out := p.ifft_out | throw Fault.null_pointer
      let ifft_out : buf_t := { ifft_out with data := env.dft_run ifft ifft_in.data }
      -- Copy CP into buffer
      let N_cp := p.N_cp
      let signal ← copy_loop Table.ifft_out Table.signal ifft_out
        (fun i => u32_add (u32_sub N_ifft_prach N_cp) i) (fun i => i) p.N_cp 0 signal
      -- Copy preamble sequence into buffer
      if 0 < p.N_seq ∧ p.N_ifft_prach = 0 then
        throw Fault.division_by_zero
      let signal ← copy_loop Table.ifft_out Table.signal ifft_out
        (fun i => i % N_ifft_prach) (fun i => u32_add N_cp i) p.N_seq 0 signal
      return (ret_t.LIBLTE_SUCCESS,
        some { p with ifft_in := some ifft_in, ifft_out := some ifft_out }, some signal)
    else
      return (ret_t.LIBLTE_ERROR, some p, some signal)
  | p, signal => return (ret_t.LIBLTE_ERROR, p, signal)

/-- The first part of `prach_detect`, up to "Extract bins of interest"; the
correlation and the threshold test that follow are floating point and are not
part of the model.  `indices_null` says whether `indices` is null. -/
def prach_detect_bins (env : dft_env) (p : Option prach_t) (freq_offset : Nat)
    (signal : Option buf_t) (sig_len : Nat) (indices_null : Bool) :
    Except Fault (ret_t × Option prach_t × Option buf_t) := do
  match p, signal with
  | some p, some signal =>
    if 0 < sig_len ∧ indices_null = false then
      if sig_len ≠ p.N_ifft_prach then
        return (ret_t.LIBLTE_ERROR_INVALID_INPUTS, some p, some signal)
      -- FFT incoming signal
      let some fft := p.fft | throw Fault.null_pointer
      let signal : buf_t := { signal with data := env.dft_run fft signal.data }
      let some prach_bins := p.prach_bins | throw Fault.null_pointer
      if prach_bins.size < p.N_zc then
        throw (Fault.out_of_bounds Table.prach_bins prach_bins.size)
      let N_zc := p.N_zc
      let cleared : buf_t :=
        { prach_bins with data := fun k => if k < N_zc then cf_t.zero else prach_bins.data k }
      -- Extract bins of interest
      let begin_ := prach_begin p.N_ifft_ul freq_offset
      let prach_bins ← copy_loop Table.signal Table.prach_bins signal
        (fun i => u32_add begin_ i) (fun i => i) p.N_zc 0 cleared
      return (ret_t.LIBLTE_SUCCESS, some { p with prach_bins := some prach_bins }, some signal)
    else
      return (ret_t.LIBLTE_ERROR, some p, some signal)
  | p, signal => return (ret_t.LIBLTE_ERROR, p, signal)

/-! ## Sample inputs -/

/-- A `prach_t` as the caller allocates it, before `prach_init`. -/
def prach_0 : prach_t :=
  { f := 0, rsi := 0, hs := false, zczc := 0, N_zc := 0, N_cs := 0, N_roots := 0,
    root_seqs_idx := fun _ => 0, seqs := fun a j => cf_t.raw (a * 1000 + j),
    dft_seqs := fun a j => cf_t.raw (a * 1000 + j), prach_bins := none, corr_spec := none,
    corr := none, zc_fft := none, zc_ifft := none, N_ifft_ul := 0, N_ifft_prach := 0,
    ifft_in := none, ifft_out := none, ifft := none, fft := none, N_seq := 0, N_cp := 0 }

/-- A DFT library whose plans never fail and whose output is not looked at. -/
def dft_ok : dft_env :=
  { dft_plan := fun _ _ => false, dft_run := fun _ x => x }

/-- The fault an execution ends with, if any. -/
def fault_of {α : Type} : Except Fault α → Option Fault
  | Except.error e => some e
  | Except.ok _ => none


/-- The loop invariant of `prach_gen_seqs` in a normal cell, before the pass for
sequence `n`, where `S` sequences share a root: with `n = q*S + r`, a new root
is due when `r = 0`; otherwise root `q` counted from `rsi` is in use and `v`
is `r`.  Sequence `i < n` is root `i / S` shifted by `(i % S) * N_cs`, and root
`k` was first used for sequence `k * S`. -/
def gen_seqs_inv (p0 : prach_t) (S n : Nat) (P : prach_t) (L : gen_seqs_vars) : Prop :=
  P.hs = p0.hs ∧ P.f = p0.f ∧ P.rsi = p0.rsi ∧ P.N_cs = p0.N_cs ∧ P.N_zc = p0.N_zc
  ∧ (∃ q r, n = q * S + r ∧ r < S
      ∧ (r = 0 → L.v_max < L.v ∧ P.N_roots = q)
      ∧ (0 < r → L.v = r ∧ L.v_max = S - 1 ∧ P.N_roots = q + 1
          ∧ ∃ u, prach_zc_roots[p0.rsi + q]? = some u
            ∧ ∀ j, j < p0.N_zc → L.root j = cf_t.zc u j p0.N_zc))
  ∧ (∀ i, i < n → ∀ j, j < p0.N_zc → ∃ u, prach_zc_roots[p0.rsi + i / S]? = some u
      ∧ P.seqs i j = cf_t.zc u ((j + (i % S) * p0.N_cs) % p0.N_zc) p0.N_zc)
  ∧ (∀ k, k < P.N_roots → P.root_seqs_idx k = k * S)


/-- A `prach_t` as `prach_init` hands it to `prach_gen_seqs` for a normal cell
with `zero_corr_zone_config = 1`. -/
def prach_normal : prach_t := { prach_0 with N_zc := 839, N_cs := 13 }

end liblte

namespace srsue

/-! ## Unfolding lemmas for `step` -/

/-- In state `cell_selection` the call `step` yields without any effect. -/
theorem step_cell_selection (p : setup_request_proc) (h : rrc_nr)
    (hs : p.state = state_t.cell_selection) :
    setup_request_proc.step p h = ⟨proc_outcome_t.yield, p, h⟩ := by
  rw [setup_request_proc.step]
  simp [hs]

/-- In state `wait_t300` the call `step` runs to the final error return. -/
theorem step_wait_t300 (p : setup_request_proc) (h : rrc_nr)
    (hs : p.state = state_t.wait_t300) :
    setup_request_proc.step p h = ⟨proc_outcome_t.error, p, h⟩ := by
  rw [setup_request_proc.step]
  simp [hs]

/-- In state `config_serving_cell` the call `step` configures the PHY, sends the
setup request, sets `wait_t300` and returns what the nested `step` returns. -/
theorem step_config_serving_cell (p : setup_request_proc) (h : rrc_nr)
    (hs : p.state = state_t.config_serving_cell) :
    setup_request_proc.step p h =
      ⟨proc_outcome_t.error, { p with state := state_t.wait_t300 },
        (({ h with phy_cfg_state := phy_cfg_state_t.PHY_CFG_STATE_APPLY_SP_CELL }.log
          (Call.phy_set_config h.phy_cfg)).log (Call.send_setup_request p.cause))⟩ := by
  rw [setup_request_proc.step]
  simp only [hs, reduceCtorEq, if_false, dite_true]
  rw [step_wait_t300 _ _ rfl]

/-- In state `cell_selection` a successful event makes `react` return what the
folded `step` returns: error, after the configuration and the setup request. -/
theorem react_value_in_cell_selection (p : setup_request_proc) (h : rrc_nr)
    (v : cell_search_result_t) (hs : p.state = state_t.cell_selection) :
    setup_request_proc.react p h (proc_result_t.value v) =
      ⟨proc_outcome_t.error,
        { p with cell_search_ret := v, state := state_t.wait_t300 },
        (({ h with phy_cfg_state := phy_cfg_state_t.PHY_CFG_STATE_APPLY_SP_CELL }.log
          (Call.phy_set_config h.phy_cfg)).log (Call.send_setup_request p.cause))⟩ := by
  unfold setup_request_proc.react
  simp only [hs, ne_eq, not_true_eq_false, if_false, if_true]
  rw [step_config_serving_cell _ _ rfl]

/-! ## Setup request procedure: claims -/

/-- C1 (evaluation at the failing input): a successful cell-selection-complete
event delivered to a setup-request procedure in state `cell_selection` does not
leave it suspended: `react` folds into `step`, which sets `wait_t300`, calls
itself and runs to the final `return proc_outcome_t::error`; `react` returns
error, not yield. -/
theorem react_success_event_returns_error :
    (setup_request_proc.react setup_req_0 rrc_0
        (proc_result_t.value cell_search_result_t.same_cell)).outcome = proc_outcome_t.error
    ∧ (setup_request_proc.react setup_req_0 rrc_0
        (proc_result_t.value cell_search_result_t.same_cell)).outcome ≠ proc_outcome_t.yield
    ∧ (setup_request_proc.react setup_req_0 rrc_0
        (proc_result_t.value cell_search_result_t.same_cell)).proc.state = state_t.wait_t300 := by
  rw [react_value_in_cell_selection setup_req_0 rrc_0 _ rfl]
  exact ⟨rfl, by decide, rfl⟩

/-- C2: when no PLMN is selected or the RRC state is not IDLE, `init` returns
error and leaves the stack context as it was: nothing is appended to the call
log (no `is_idle` query, no `launch`), the cell selector and the callback list
are untouched. -/
theorem setup_request_init_precondition_error (env : Env) (p : setup_request_proc)
    (h : rrc_nr) (cause_ : nr_establishment_cause_t) (nas : unique_byte_buffer_t)
    (hpre : h.plmn_is_selected = false ∨ h.state ≠ rrc_nr_state_t.RRC_NR_STATE_IDLE) :
    (setup_request_proc.init env p h cause_ nas).outcome = proc_outcome_t.error
    ∧ (setup_request_proc.init env p h cause_ nas).handle = h
    ∧ (setup_request_proc.init env p h cause_ nas).handle.calls = h.calls
    ∧ (setup_request_proc.init env p h cause_ nas).handle.cell_selector = h.cell_selector
    ∧ (setup_request_proc.init env p h cause_ nas).handle.callback_list = h.callback_list := by
  unfold setup_request_proc.init
  rcases hpre with hp | hst
  · simp [hp]
  · by_cases hp : h.plmn_is_selected = true
    · simp [hp, hst]
    · simp [hp]

/-- Witness of C2 at a context without a selected PLMN. -/
theorem setup_request_init_precondition_error_witness :
    (setup_request_proc.init env_ok setup_req_0 rrc_no_plmn 3 (some [4])).outcome
        = proc_outcome_t.error
    ∧ (setup_request_proc.init env_ok setup_req_0 rrc_no_plmn 3 (some [4])).handle = rrc_no_plmn
    ∧ (setup_request_proc.init env_ok setup_req_0 rrc_no_plmn 3 (some [4])).handle.calls
        = rrc_no_plmn.calls
    ∧ (setup_request_proc.init env_ok setup_req_0 rrc_no_plmn 3 (some [4])).handle.cell_selector
        = rrc_no_plmn.cell_selector
    ∧ (setup_request_proc.init env_ok setup_req_0 rrc_no_plmn 3 (some [4])).handle.callback_list
        = rrc_no_plmn.callback_list :=
  setup_request_init_precondition_error env_ok setup_req_0 rrc_no_plmn 3 (some [4])
    (Or.inl rfl)

/-- C3: with a PLMN selected, the RRC state IDLE and the cell selector idle,
`init` returns yield in state `cell_selection`, and what it appends to the call
log is the `is_idle` query, one successful `launch` (inside which the cell
selection issues its one PHY cell select) and the `add_proc`: the cell-selection
procedure is launched exactly once. -/
theorem setup_request_init_launches_once (env : Env) (p : setup_request_proc)
    (h : rrc_nr) (cause_ : nr_establishment_cause_t) (nas : unique_byte_buffer_t)
    (hplmn : h.plmn_is_selected = true)
    (hst : h.state = rrc_nr_state_t.RRC_NR_STATE_IDLE)
    (hidle : h.cell_selector.is_idle = true) :
    (setup_request_proc.init env p h cause_ nas).outcome = proc_outcome_t.yield
    ∧ (setup_request_proc.init env p h cause_ nas).proc.state = state_t.cell_selection
    ∧ (setup_request_proc.init env p h cause_ nas).handle.calls =
        h.calls ++ [Call.cell_selector_is_idle true, Call.cell_selector_launch true,
          Call.phy_start_cell_select ⟨h.phy_cfg.carrier, h.phy_cfg.get_ssb_cfg⟩,
          Call.callback_list_add_proc]
    ∧ (setup_request_proc.init env p h cause_ nas).handle.calls.countP Call.is_launch =
        h.calls.countP Call.is_launch + 1 := by
  have hb : h.cell_selector.busy = false := by
    simpa [proc_manager_t.is_idle] using hidle
  have hcalls : (setup_request_proc.init env p h cause_ nas).handle.calls =
        h.calls ++ [Call.cell_selector_is_idle true, Call.cell_selector_launch true,
          Call.phy_start_cell_select ⟨h.phy_cfg.carrier, h.phy_cfg.get_ssb_cfg⟩,
          Call.callback_list_add_proc] := by
    simp [setup_request_proc.init, hplmn, hst, hidle, cell_selector_launch,
      proc_manager_t.is_busy, proc_manager_t.is_idle, hb, rrc_nr.log,
      cell_selection_proc.init, cell_selection_proc.is_serv_cell_suitable,
      cell_selection_proc.set_proc_complete, phy_start_cell_select,
      cell_selection_proc.then, defer_task, add_proc]
  refine ⟨?_, ?_, hcalls, ?_⟩
  · simp [setup_request_proc.init, hplmn, hst, hidle, cell_selector_launch,
      proc_manager_t.is_busy, proc_manager_t.is_idle, hb, rrc_nr.log,
      cell_selection_proc.init, cell_selection_proc.is_serv_cell_suitable,
      cell_selection_proc.set_proc_complete]
  · simp [setup_request_proc.init, hplmn, hst, hidle, cell_selector_launch,
      proc_manager_t.is_busy, proc_manager_t.is_idle, hb, rrc_nr.log,
      cell_selection_proc.init, cell_selection_proc.is_serv_cell_suitable,
      cell_selection_proc.set_proc_complete]
  · rw [hcalls]
    simp [List.countP_append, List.countP_cons, Call.is_launch]

/-- Witness of C3 at an idle context whose PHY moves to another cell. -/
theorem setup_request_init_launches_once_witness :
    (setup_request_proc.init env_move setup_req_waiting rrc_0 3 (some [4])).outcome
        = proc_outcome_t.yield
    ∧ (setup_request_proc.init env_move setup_req_waiting rrc_0 3 (some [4])).proc.state
        = state_t.cell_selection
    ∧ (setup_request_proc.init env_move setup_req_waiting rrc_0 3 (some [4])).handle.calls =
        rrc_0.calls ++ [Call.cell_selector_is_idle true, Call.cell_selector_launch true,
          Call.phy_start_cell_select ⟨rrc_0.phy_cfg.carrier, rrc_0.phy_cfg.get_ssb_cfg⟩,
          Call.callback_list_add_proc]
    ∧ (setup_request_proc.init env_move setup_req_waiting rrc_0 3
          (some [4])).handle.calls.countP Call.is_launch =
        rrc_0.calls.countP Call.is_launch + 1 :=
  setup_request_init_launches_once env_move setup_req_waiting rrc_0 3 (some [4]) rfl rfl rfl

/-- C4: with a PLMN selected, the RRC state IDLE and a cell selection already
running, `init` returns yield with the procedure in state `cell_selection`; the
only call it makes is the `is_idle` query, so no launch is issued, and the cell
selector, the callback list and the task queue are as before. -/
theorem setup_request_init_joins_running_selection (env : Env) (p : setup_request_proc)
    (h : rrc_nr) (cause_ : nr_establishment_cause_t) (nas : unique_byte_buffer_t)
    (hplmn : h.plmn_is_selected = true)
    (hst : h.state = rrc_nr_state_t.RRC_NR_STATE_IDLE)
    (hrun : h.cell_selector.is_idle = false) :
    (setup_request_proc.init env p h cause_ nas).outcome = proc_outcome_t.yield
    ∧ (setup_request_proc.init env p h cause_ nas).proc.state = state_t.cell_selection
    ∧ (setup_request_proc.init env p h cause_ nas).handle =
        h.log (Call.cell_selector_is_idle false)
    ∧ (setup_request_proc.init env p h cause_ nas).handle.calls.countP Call.is_launch =
        h.calls.countP Call.is_launch
    ∧ Call.callback_list_add_proc ∉
        (setup_request_proc.init env p h cause_ nas).handle.calls.drop h.calls.length
    ∧ (setup_request_proc.init env p h cause_ nas).handle.callback_list = h.callback_list
    ∧ (setup_request_proc.init env p h cause_ nas).handle.cell_selector = h.cell_selector
    ∧ (setup_request_proc.init env p h cause_ nas).handle.task_sched = h.task_sched := by
  simp [setup_request_proc.init, hplmn, hst, hrun, rrc_nr.log, List.countP_append,
    List.countP_cons, Call.is_launch]

/-- Witness of C4 at a context whose cell selector is busy. -/
theorem setup_request_init_joins_running_selection_witness :
    (setup_request_proc.init env_ok setup_req_waiting rrc_selecting 3 (some [4])).outcome
        = proc_outcome_t.yield
    ∧ (setup_request_proc.init env_ok setup_req_waiting rrc_selecting 3 (some [4])).proc.state
        = state_t.cell_selection
    ∧ (setup_request_proc.init env_ok setup_req_waiting rrc_selecting 3 (some [4])).handle =
        rrc_selecting.log (Call.cell_selector_is_idle false)
    ∧ (setup_request_proc.init env_ok setup_req_waiting rrc_selecting 3
          (some [4])).handle.calls.countP Call.is_launch =
        rrc_selecting.calls.countP Call.is_launch
    ∧ Call.callback_list_add_proc ∉
        (setup_request_proc.init env_ok setup_req_waiting rrc_selecting 3
          (some [4])).handle.calls.drop rrc_selecting.calls.length
    ∧ (setup_request_proc.init env_ok setup_req_waiting rrc_selecting 3
          (some [4])).handle.callback_list = rrc_selecting.callback_list
    ∧ (setup_request_proc.init env_ok setup_req_waiting rrc_selecting 3
          (some [4])).handle.cell_selector = rrc_selecting.cell_selector
    ∧ (setup_request_proc.init env_ok setup_req_waiting rrc_selecting 3
          (some [4])).handle.task_sched = rrc_selecting.task_sched :=
  setup_request_init_joins_running_selection env_ok setup_req_waiting rrc_selecting 3
    (some [4]) rfl rfl rfl

/-- C5: a cell-selection-complete event, successful or failed, delivered while the
procedure is not in state `cell_selection` makes `react` return yield with the
procedure object (state and stored cell-search result included) and the stack
context (call log included: no `set_config`, no `send_setup_request`) unchanged. -/
theorem setup_request_react_ignores_unexpected_event (p : setup_request_proc) (h : rrc_nr)
    (e : cell_selection_complete_ev) (hs : p.state ≠ state_t.cell_selection) :
    (setup_request_proc.react p h e).outcome = proc_outcome_t.yield
    ∧ (setup_request_proc.react p h e).proc = p
    ∧ (setup_request_proc.react p h e).proc.state = p.state
    ∧ (setup_request_proc.react p h e).proc.cell_search_ret = p.cell_search_ret
    ∧ (setup_request_proc.react p h e).handle = h
    ∧ (setup_request_proc.react p h e).handle.calls = h.calls := by
  simp [setup_request_proc.react, hs]

/-- Witness of C5 at a procedure that waits for the response. -/
theorem setup_request_react_ignores_unexpected_event_witness :
    (setup_request_proc.react setup_req_waiting rrc_0
        (proc_result_t.value cell_search_result_t.changed_cell)).outcome = proc_outcome_t.yield
    ∧ (setup_request_proc.react setup_req_waiting rrc_0
        (proc_result_t.value cell_search_result_t.changed_cell)).proc = setup_req_waiting
    ∧ (setup_request_proc.react setup_req_waiting rrc_0
        (proc_result_t.value cell_search_result_t.changed_cell)).proc.state
          = setup_req_waiting.state
    ∧ (setup_request_proc.react setup_req_waiting rrc_0
        (proc_result_t.value cell_search_result_t.changed_cell)).proc.cell_search_ret
          = setup_req_waiting.cell_search_ret
    ∧ (setup_request_proc.react setup_req_waiting rrc_0
        (proc_result_t.value cell_search_result_t.changed_cell)).handle = rrc_0
    ∧ (setup_request_proc.react setup_req_waiting rrc_0
        (proc_result_t.value cell_search_result_t.changed_cell)).handle.calls = rrc_0.calls :=
  setup_request_react_ignores_unexpected_event setup_req_waiting rrc_0
    (proc_result_t.value cell_search_result_t.changed_cell) (by decide)

/-- C6: a cell-selection-complete event that carries an error, delivered in state
`cell_selection`, makes `react` return error with the procedure object (its
state included) and the stack context unchanged: the PHY configuration state is
as before and nothing is appended to the call log. -/
theorem setup_request_react_error_event (p : setup_request_proc) (h : rrc_nr)
    (e : cell_selection_complete_ev) (hs : p.state = state_t.cell_selection)
    (he : e.is_error = true) :
    (setup_request_proc.react p h e).outcome = proc_outcome_t.error
    ∧ (setup_request_proc.react p h e).proc = p
    ∧ (setup_request_proc.react p h e).proc.state = state_t.cell_selection
    ∧ (setup_request_proc.react p h e).handle = h
    ∧ (setup_request_proc.react p h e).handle.phy_cfg_state = h.phy_cfg_state
    ∧ (setup_request_proc.react p h e).handle.calls = h.calls := by
  cases e with
  | value v => simp [proc_result_t.is_error] at he
  | error => simp [setup_request_proc.react, hs]

/-- Witness of C6 at a fresh procedure and the error event. -/
theorem setup_request_react_error_event_witness :
    (setup_request_proc.react setup_req_0 rrc_0 proc_result_t.error).outcome
        = proc_outcome_t.error
    ∧ (setup_request_proc.react setup_req_0 rrc_0 proc_result_t.error).proc = setup_req_0
    ∧ (setup_request_proc.react setup_req_0 rrc_0 proc_result_t.error).proc.state
        = state_t.cell_selection
    ∧ (setup_request_proc.react setup_req_0 rrc_0 proc_result_t.error).handle = rrc_0
    ∧ (setup_request_proc.react setup_req_0 rrc_0 proc_result_t.error).handle.phy_cfg_state
        = rrc_0.phy_cfg_state
    ∧ (setup_request_proc.react setup_req_0 rrc_0 proc_result_t.error).handle.calls
        = rrc_0.calls :=
  setup_request_react_error_event setup_req_0 rrc_0 proc_result_t.error rfl rfl

/-- C7: `then` releases the carried payload exactly when the result is an error.
After `then(error)` the payload of the procedure and the one of the stack
context are both empty and nothing else differs; this covers the payload that
an `init` whose preconditions fail has moved into the procedure.  After
`then(success)` the procedure object and the stack context are unchanged. -/
theorem setup_request_then_releases_payload_on_error (env : Env) (p : setup_request_proc)
    (h : rrc_nr) (cause_ : nr_establishment_cause_t) (nas : unique_byte_buffer_t)
    (result : proc_state_t) :
    (result.is_error = true →
      (setup_request_proc.then p h result).1.dedicated_info_nas = none
      ∧ (setup_request_proc.then p h result).2.dedicated_info_nas = none
      ∧ setup_request_proc.then p h result =
          ({ p with dedicated_info_nas := none }, { h with dedicated_info_nas := none }))
    ∧ (result.is_success = true →
      setup_request_proc.then p h result = (p, h)
      ∧ (setup_request_proc.then p h result).1.dedicated_info_nas = p.dedicated_info_nas
      ∧ (setup_request_proc.then p h result).2.dedicated_info_nas = h.dedicated_info_nas)
    ∧ ((h.plmn_is_selected = false ∨ h.state ≠ rrc_nr_state_t.RRC_NR_STATE_IDLE) →
      (setup_request_proc.init env p h cause_ nas).proc.dedicated_info_nas = nas
      ∧ (setup_request_proc.then (setup_request_proc.init env p h cause_ nas).proc
          (setup_request_proc.init env p h cause_ nas).handle
          proc_result_t.error).1.dedicated_info_nas = none
      ∧ (setup_request_proc.then (setup_request_proc.init env p h cause_ nas).proc
          (setup_request_proc.init env p h cause_ nas).handle
          proc_result_t.error).2.dedicated_info_nas = none) := by
  refine ⟨?_, ?_, ?_⟩
  · intro he
    simp [setup_request_proc.then, he]
  · intro hv
    cases result with
    | value u => simp [setup_request_proc.then, proc_result_t.is_error]
    | error => simp [proc_result_t.is_success] at hv
  · intro hpre
    refine ⟨?_, ?_, ?_⟩
    · unfold setup_request_proc.init
      rcases hpre with hp | hst
      · simp [hp]
      · by_cases hp : h.plmn_is_selected = true
        · simp [hp, hst]
        · simp [hp]
    · simp [setup_request_proc.then, proc_result_t.is_error]
    · simp [setup_request_proc.then, proc_result_t.is_error]

/-- Witness of C7: an `init` without a selected PLMN takes the payload `[4]`, and
the `then(error)` that follows leaves both payloads empty. -/
theorem setup_request_then_releases_payload_on_error_witness :
    (setup_request_proc.init env_ok setup_req_0 rrc_no_plmn 3 (some [4])).proc.dedicated_info_nas
        = some [4]
    ∧ (setup_request_proc.then
          (setup_request_proc.init env_ok setup_req_0 rrc_no_plmn 3 (some [4])).proc
          (setup_request_proc.init env_ok setup_req_0 rrc_no_plmn 3 (some [4])).handle
          proc_result_t.error).1.dedicated_info_nas = none
    ∧ (setup_request_proc.then
          (setup_request_proc.init env_ok setup_req_0 rrc_no_plmn 3 (some [4])).proc
          (setup_request_proc.init env_ok setup_req_0 rrc_no_plmn 3 (some [4])).handle
          proc_result_t.error).2.dedicated_info_nas = none :=
  (setup_request_then_releases_payload_on_error env_ok setup_req_0 rrc_no_plmn 3 (some [4])
    proc_result_t.error).2.2 (Or.inl rfl)

/-! ## Cell selection procedure: claims -/

/-- C8: `cell_selection_proc::init` resolves within the call: it returns success,
never yield.  It records the identity of the serving cell at entry, and the
classified result is `same_cell` exactly when `is_same_cell` holds between that
identity and the serving cell read after `start_cell_select`, and
`changed_cell` otherwise; when the serving cell is unchanged the result is
`same_cell`. -/
theorem cell_selection_init_resolves_and_classifies (env : Env) (p : cell_selection_proc)
    (h : rrc_nr) :
    (cell_selection_proc.init env p h).outcome = proc_outcome_t.success
    ∧ (cell_selection_proc.init env p h).outcome ≠ proc_outcome_t.yield
    ∧ (cell_selection_proc.init env p h).proc.init_serv_cell =
        h.meas_cells.serving_cell.phy_cell
    ∧ ((cell_selection_proc.init env p h).proc.cell_search_ret = cell_search_result_t.same_cell
        ↔ is_same_cell h.meas_cells.serving_cell.phy_cell
            (cell_selection_proc.init env p h).handle.meas_cells.serving_cell = true)
    ∧ (is_same_cell h.meas_cells.serving_cell.phy_cell
            (cell_selection_proc.init env p h).handle.meas_cells.serving_cell = false →
        (cell_selection_proc.init env p h).proc.cell_search_ret
          = cell_search_result_t.changed_cell)
    ∧ ((cell_selection_proc.init env p h).handle.meas_cells.serving_cell
          = h.meas_cells.serving_cell →
        (cell_selection_proc.init env p h).proc.cell_search_ret
          = cell_search_result_t.same_cell) := by
  refine ⟨?_, ?_, ?_, ?_, ?_, ?_⟩
  · simp [cell_selection_proc.init, cell_selection_proc.set_proc_complete,
      cell_selection_proc.is_serv_cell_suitable]
  · simp [cell_selection_proc.init, cell_selection_proc.set_proc_complete,
      cell_selection_proc.is_serv_cell_suitable]
  · simp [cell_selection_proc.init, cell_selection_proc.set_proc_complete,
      cell_selection_proc.is_serv_cell_suitable]
  · simp only [cell_selection_proc.init, cell_selection_proc.set_proc_complete,
      cell_selection_proc.is_serv_cell_suitable, if_true]
    split <;> simp_all
  · intro hne
    simp only [cell_selection_proc.init, cell_selection_proc.set_proc_complete,
      cell_selection_proc.is_serv_cell_suitable, if_true] at hne ⊢
    simp [hne]
  · intro hsame
    simp only [cell_selection_proc.init, cell_selection_proc.set_proc_complete,
      cell_selection_proc.is_serv_cell_suitable, if_true] at hsame ⊢
    simp [hsame, is_same_cell]

/-- Witness of C8: with a PHY that keeps the serving cell the result is
`same_cell`, with one that moves to another cell it is `changed_cell`. -/
theorem cell_selection_init_resolves_and_classifies_witness :
    (cell_selection_proc.init env_ok cell_sel_0 rrc_0).proc.cell_search_ret
        = cell_search_result_t.same_cell
    ∧ (cell_selection_proc.init env_move cell_sel_0 rrc_0).proc.cell_search_ret
        = cell_search_result_t.changed_cell :=
  ⟨(cell_selection_init_resolves_and_classifies env_ok cell_sel_0 rrc_0).2.2.2.2.2 rfl,
   (cell_selection_init_resolves_and_classifies env_move cell_sel_0 rrc_0).2.2.2.2.1 rfl⟩

/-- C9: for every result, `cell_selection_proc::then` appends exactly one task,
the notification carrying that result, to the task queue and changes nothing
else: the setup-request procedure (slot state and procedure object) is the same
after the call, and no call is logged. -/
theorem cell_selection_then_defers_one_task (p : cell_selection_proc) (h : rrc_nr)
    (proc_result : proc_result_t cell_search_result_t) :
    cell_selection_proc.then p h proc_result =
        { h with task_sched := h.task_sched ++ [deferred_task.inform_setup_req proc_result] }
    ∧ (cell_selection_proc.then p h proc_result).task_sched.length = h.task_sched.length + 1
    ∧ (cell_selection_proc.then p h proc_result).setup_req_proc = h.setup_req_proc
    ∧ (cell_selection_proc.then p h proc_result).setup_req_proc.proc.state
        = h.setup_req_proc.proc.state
    ∧ (cell_selection_proc.then p h proc_result).calls = h.calls := by
  simp [cell_selection_proc.then, defer_task]

/-! ## Reconfiguration without handover: claims -/

/-- C11 (counterexample): with the three changes present, a blob that decodes and
three apply operations that return true, `init` does resolve the procedure: it
returns success, not yield. -/
theorem reconf_init_all_applied_is_not_yield :
    env_ok.unpack reconf_all.rrc_recfg.secondary_cell_group = some 1
    ∧ new_calls rrc_0 (connection_reconf_no_ho_proc.init env_ok reconf_0 rrc_0
        reconf_initiator_t.nr false reconf_all).handle
      = [Call.apply_cell_group_cfg 1 true, Call.configure_sk_counter 4464 true,
          Call.apply_radio_bearer_cfg 4 true]
    ∧ (connection_reconf_no_ho_proc.init env_ok reconf_0 rrc_0
        reconf_initiator_t.nr false reconf_all).outcome = proc_outcome_t.success
    ∧ (connection_reconf_no_ho_proc.init env_ok reconf_0 rrc_0
        reconf_initiator_t.nr false reconf_all).outcome ≠ proc_outcome_t.yield := by
  decide

/-- C11 (amended): when the message has the expected alternative and a blob that
decodes wherever a secondary cell group is present, and every apply operation
`init` invokes returns true, `init` returns success: the procedure resolves
within `init` and does not yield. -/
theorem reconf_init_all_applied_returns_success (env : Env)
    (p : connection_reconf_no_ho_proc) (h : rrc_nr) (initiator_ : reconf_initiator_t)
    (endc : Bool) (msg : rrc_recfg_s)
    (hty : msg.rrc_recfg.secondary_cell_group_present = true →
      msg.crit_exts_type = crit_exts_types.rrc_recfg)
    (hdec : msg.rrc_recfg.secondary_cell_group_present = true →
      env.unpack msg.rrc_recfg.secondary_cell_group ≠ none)
    (hok : ∀ c ∈ new_calls h
      (connection_reconf_no_ho_proc.init env p h initiator_ endc msg).handle, c.ret = true) :
    (connection_reconf_no_ho_proc.init env p h initiator_ endc msg).outcome
        = proc_outcome_t.success
    ∧ (connection_reconf_no_ho_proc.init env p h initiator_ endc msg).outcome
        ≠ proc_outcome_t.yield := by
  have hs : (connection_reconf_no_ho_proc.init env p h initiator_ endc msg).outcome
      = proc_outcome_t.success := by
    revert hty hdec hok
    obtain ⟨ty, ⟨scgp, scg, skp, sk, rbp, rb⟩⟩ := msg
    unfold connection_reconf_no_ho_proc.init
    cases hu : env.unpack scg <;>
    cases scgp <;> cases skp <;> cases rbp <;> cases ty <;>
    (try simp [Id.run, hu, new_calls]) <;>
    (try split_ifs) <;> (try simp_all [rrc_nr.log, new_calls, Call.stage, Call.ret])
  exact ⟨hs, by rw [hs]; decide⟩

/-- Witness of C11 (amended) at the message with the three changes present. -/
theorem reconf_init_all_applied_returns_success_witness :
    (connection_reconf_no_ho_proc.init env_ok reconf_0 rrc_0
        reconf_initiator_t.nr false reconf_all).outcome = proc_outcome_t.success
    ∧ (connection_reconf_no_ho_proc.init env_ok reconf_0 rrc_0
        reconf_initiator_t.nr false reconf_all).outcome ≠ proc_outcome_t.yield :=
  reconf_init_all_applied_returns_success env_ok reconf_0 rrc_0 reconf_initiator_t.nr false
    reconf_all (fun _ => rfl) (by decide) (by decide)

/-- C12: `init` records the initiator before anything can fail.  When the
secondary cell group is present and decodes but its apply returns false, `init`
returns error after that one call, and the `then(error)` that follows calls
`nr_notify_reconfiguration_failure` once if the recorded initiator is
`mcg_srb1` and not at all otherwise; `nr_rrc_con_reconfig_complete` is called
neither by `init` nor by `then`. -/
theorem reconf_then_failure_follows_initiator (env : Env)
    (p : connection_reconf_no_ho_proc) (h : rrc_nr) (initiator_ : reconf_initiator_t)
    (endc : Bool) (msg : rrc_recfg_s) (cfg : cell_group_cfg_s)
    (hscg : msg.rrc_recfg.secondary_cell_group_present = true)
    (hty : msg.crit_exts_type = crit_exts_types.rrc_recfg)
    (hdec : env.unpack msg.rrc_recfg.secondary_cell_group = some cfg)
    (hfail : env.apply_cell_group_cfg h cfg = false) :
    (connection_reconf_no_ho_proc.init env p h initiator_ endc msg).outcome
        = proc_outcome_t.error
    ∧ (connection_reconf_no_ho_proc.init env p h initiator_ endc msg).proc.initiator
        = initiator_
    ∧ new_calls h (connection_reconf_no_ho_proc.init env p h initiator_ endc msg).handle
        = [Call.apply_cell_group_cfg cfg false]
    ∧ new_calls (connection_reconf_no_ho_proc.init env p h initiator_ endc msg).handle
          (connection_reconf_no_ho_proc.then
            (connection_reconf_no_ho_proc.init env p h initiator_ endc msg).proc
            (connection_reconf_no_ho_proc.init env p h initiator_ endc msg).handle
            proc_result_t.error)
        = (if initiator_ = reconf_initiator_t.mcg_srb1
            then [Call.nr_notify_reconfiguration_failure] else [])
    ∧ ((new_calls (connection_reconf_no_ho_proc.init env p h initiator_ endc msg).handle
          (connection_reconf_no_ho_proc.then
            (connection_reconf_no_ho_proc.init env p h initiator_ endc msg).proc
            (connection_reconf_no_ho_proc.init env p h initiator_ endc msg).handle
            proc_result_t.error)).count Call.nr_notify_reconfiguration_failure = 1
        ↔ initiator_ = reconf_initiator_t.mcg_srb1)
    ∧ (∀ b, Call.nr_rrc_con_reconfig_complete b ∉
        new_calls h (connection_reconf_no_ho_proc.then
            (connection_reconf_no_ho_proc.init env p h initiator_ endc msg).proc
            (connection_reconf_no_ho_proc.init env p h initiator_ endc msg).handle
            proc_result_t.error)) := by
  obtain ⟨ty, ⟨scgp, scg, skp, sk, rbp, rb⟩⟩ := msg
  simp only at hscg hty hdec
  subst hscg hty
  have hinit : connection_reconf_no_ho_proc.init env p h initiator_ endc
      ⟨crit_exts_types.rrc_recfg, ⟨true, scg, skp, sk, rbp, rb⟩⟩ =
      ⟨proc_outcome_t.error, { p with initiator := initiator_ },
        h.log (Call.apply_cell_group_cfg cfg false)⟩ := by
    unfold connection_reconf_no_ho_proc.init
    simp [Id.run, hdec, hfail]
  rw [hinit]
  cases initiator_ <;>
    simp [connection_reconf_no_ho_proc.then, proc_result_t.is_success, new_calls, rrc_nr.log]

/-- Witness of C12: a refused cell group with initiator `mcg_srb1`. -/
theorem reconf_then_failure_follows_initiator_witness :
    (connection_reconf_no_ho_proc.init env_no_cell_group reconf_0 rrc_0
        reconf_initiator_t.mcg_srb1 false reconf_all).outcome = proc_outcome_t.error
    ∧ new_calls (connection_reconf_no_ho_proc.init env_no_cell_group reconf_0 rrc_0
          reconf_initiator_t.mcg_srb1 false reconf_all).handle
          (connection_reconf_no_ho_proc.then
            (connection_reconf_no_ho_proc.init env_no_cell_group reconf_0 rrc_0
              reconf_initiator_t.mcg_srb1 false reconf_all).proc
            (connection_reconf_no_ho_proc.init env_no_cell_group reconf_0 rrc_0
              reconf_initiator_t.mcg_srb1 false reconf_all).handle
            proc_result_t.error)
        = (if reconf_initiator_t.mcg_srb1 = reconf_initiator_t.mcg_srb1
            then [Call.nr_notify_reconfiguration_failure] else []) :=
  ⟨(reconf_then_failure_follows_initiator env_no_cell_group reconf_0 rrc_0
      reconf_initiator_t.mcg_srb1 false reconf_all 1 rfl rfl rfl rfl).1,
   (reconf_then_failure_follows_initiator env_no_cell_group reconf_0 rrc_0
      reconf_initiator_t.mcg_srb1 false reconf_all 1 rfl rfl rfl rfl).2.2.2.1⟩

/-- C13: when a secondary cell group is present and its blob does not decode,
`init` returns error and leaves the stack context as it was, whatever the other
presence flags are: no call is appended to the log, so none of the three apply
operations is invoked. -/
theorem reconf_init_decode_failure_aborts (env : Env)
    (p : connection_reconf_no_ho_proc) (h : rrc_nr) (initiator_ : reconf_initiator_t)
    (endc : Bool) (msg : rrc_recfg_s)
    (hscg : msg.rrc_recfg.secondary_cell_group_present = true)
    (hdec : env.unpack msg.rrc_recfg.secondary_cell_group = none) :
    (connection_reconf_no_ho_proc.init env p h initiator_ endc msg).outcome
        = proc_outcome_t.error
    ∧ (connection_reconf_no_ho_proc.init env p h initiator_ endc msg).handle = h
    ∧ new_calls h (connection_reconf_no_ho_proc.init env p h initiator_ endc msg).handle = []
    ∧ (∀ c ∈ new_calls h
          (connection_reconf_no_ho_proc.init env p h initiator_ endc msg).handle,
        c.is_apply = false) := by
  obtain ⟨ty, ⟨scgp, scg, skp, sk, rbp, rb⟩⟩ := msg
  simp only at hscg hdec
  subst hscg
  have hinit : connection_reconf_no_ho_proc.init env p h initiator_ endc
      ⟨ty, ⟨true, scg, skp, sk, rbp, rb⟩⟩ =
      ⟨proc_outcome_t.error, { p with initiator := initiator_ }, h⟩ := by
    unfold connection_reconf_no_ho_proc.init
    cases ty <;> simp [Id.run, hdec]
  rw [hinit]
  simp [new_calls]

/-- Witness of C13: an empty blob, which the decoder of `env_move` rejects, with
the sk counter and the radio bearer configuration present too. -/
theorem reconf_init_decode_failure_aborts_witness :
    (connection_reconf_no_ho_proc.init env_move reconf_0 rrc_0
        reconf_initiator_t.nr false reconf_empty_blob).outcome = proc_outcome_t.error
    ∧ (connection_reconf_no_ho_proc.init env_move reconf_0 rrc_0
        reconf_initiator_t.nr false reconf_empty_blob).handle = rrc_0
    ∧ new_calls rrc_0 (connection_reconf_no_ho_proc.init env_move reconf_0 rrc_0
        reconf_initiator_t.nr false reconf_empty_blob).handle = []
    ∧ (∀ c ∈ new_calls rrc_0 (connection_reconf_no_ho_proc.init env_move reconf_0 rrc_0
          reconf_initiator_t.nr false reconf_empty_blob).handle,
        c.is_apply = false) :=
  reconf_init_decode_failure_aborts env_move reconf_0 rrc_0 reconf_initiator_t.nr false
    reconf_empty_blob rfl rfl

/-! ## Connection setup procedure: claims -/

/-- C14: `connection_setup_proc::init` applies the radio bearer configuration
first.  When that call returns false, `init` returns error and the cell group
configuration is not applied; when it returns true the cell group configuration
is applied next.  `init` returns yield exactly when both calls returned true,
and error otherwise. -/
theorem con_setup_init_yields_iff_both_applied (env : Env) (p : connection_setup_proc)
    (h : rrc_nr) (rb : radio_bearer_cfg_s) (cg : cell_group_cfg_s)
    (nas : unique_byte_buffer_t) :
    ((connection_setup_proc.init env p h rb cg nas).outcome = proc_outcome_t.yield ↔
      env.apply_radio_bearer_cfg h rb = true
      ∧ env.apply_cell_group_cfg (h.log (Call.apply_radio_bearer_cfg rb true)) cg = true)
    ∧ ((connection_setup_proc.init env p h rb cg nas).outcome = proc_outcome_t.yield ↔
      new_calls h (connection_setup_proc.init env p h rb cg nas).handle
        = [Call.apply_radio_bearer_cfg rb true, Call.apply_cell_group_cfg cg true])
    ∧ ((connection_setup_proc.init env p h rb cg nas).outcome ≠ proc_outcome_t.yield →
      (connection_setup_proc.init env p h rb cg nas).outcome = proc_outcome_t.error)
    ∧ (env.apply_radio_bearer_cfg h rb = false →
      (connection_setup_proc.init env p h rb cg nas).outcome = proc_outcome_t.error
      ∧ new_calls h (connection_setup_proc.init env p h rb cg nas).handle
        = [Call.apply_radio_bearer_cfg rb false])
    ∧ (env.apply_radio_bearer_cfg h rb = true →
      new_calls h (connection_setup_proc.init env p h rb cg nas).handle
        = [Call.apply_radio_bearer_cfg rb true,
            Call.apply_cell_group_cfg cg
              (env.apply_cell_group_cfg (h.log (Call.apply_radio_bearer_cfg rb true)) cg)]) := by
  unfold connection_setup_proc.init
  cases h1 : env.apply_radio_bearer_cfg h rb <;>
  cases h2 : env.apply_cell_group_cfg (h.log (Call.apply_radio_bearer_cfg rb true)) cg <;>
  simp only [Id.run, h1, h2, Bool.not_true, Bool.not_false, Bool.false_eq_true, if_true,
    if_false, bind, pure] <;>
  simp [new_calls, rrc_nr.log]

/-- Witness of C14: a refused radio bearer configuration ends `init` with error
after that one call; a refused cell group configuration is the second call made. -/
theorem con_setup_init_yields_iff_both_applied_witness :
    ((connection_setup_proc.init env_no_radio_bearer con_setup_0 rrc_0 4 5 (some [1])).outcome
        = proc_outcome_t.error
      ∧ new_calls rrc_0
          (connection_setup_proc.init env_no_radio_bearer con_setup_0 rrc_0 4 5 (some [1])).handle
        = [Call.apply_radio_bearer_cfg 4 false])
    ∧ new_calls rrc_0
          (connection_setup_proc.init env_no_cell_group con_setup_0 rrc_0 4 5 (some [1])).handle
        = [Call.apply_radio_bearer_cfg 4 true,
            Call.apply_cell_group_cfg 5
              (env_no_cell_group.apply_cell_group_cfg
                (rrc_0.log (Call.apply_radio_bearer_cfg 4 true)) 5)] :=
  ⟨(con_setup_init_yields_iff_both_applied env_no_radio_bearer con_setup_0 rrc_0 4 5
      (some [1])).2.2.2.1 rfl,
   (con_setup_init_yields_iff_both_applied env_no_cell_group con_setup_0 rrc_0 4 5
      (some [1])).2.2.2.2 rfl⟩

/-- C15: the payload handed to an `init` that returns yield is the one the
following `react(true)` sends: `react` returns success, the one call it makes is
`send_con_setup_complete` with exactly that payload, and afterwards the
procedure holds no payload. -/
theorem con_setup_payload_round_trip (env : Env) (p : connection_setup_proc)
    (h h2 : rrc_nr) (rb : radio_bearer_cfg_s) (cg : cell_group_cfg_s)
    (b : unique_byte_buffer_t)
    (_hy : (connection_setup_proc.init env p h rb cg b).outcome = proc_outcome_t.yield) :
    (connection_setup_proc.react (connection_setup_proc.init env p h rb cg b).proc h2
        true).outcome = proc_outcome_t.success
    ∧ new_calls h2 (connection_setup_proc.react
        (connection_setup_proc.init env p h rb cg b).proc h2 true).handle
      = [Call.send_con_setup_complete b]
    ∧ (new_calls h2 (connection_setup_proc.react
        (connection_setup_proc.init env p h rb cg b).proc h2 true).handle).countP
          Call.is_setup_complete = 1
    ∧ (connection_setup_proc.react (connection_setup_proc.init env p h rb cg b).proc h2
        true).proc.dedicated_info_nas = none := by
  have hp : (connection_setup_proc.init env p h rb cg b).proc.dedicated_info_nas = b := by
    unfold connection_setup_proc.init
    cases h1 : env.apply_radio_bearer_cfg h rb <;>
    cases h2 : env.apply_cell_group_cfg (h.log (Call.apply_radio_bearer_cfg rb true)) cg <;>
    simp [Id.run, h1, h2]
  simp [connection_setup_proc.react, hp, new_calls, rrc_nr.log, Call.is_setup_complete]

/-- Witness of C15 with the payload `[1]`, the event arriving in the context
`init` left behind. -/
theorem con_setup_payload_round_trip_witness :
    (connection_setup_proc.react
        (connection_setup_proc.init env_ok con_setup_0 rrc_0 4 5 (some [1])).proc
        (connection_setup_proc.init env_ok con_setup_0 rrc_0 4 5 (some [1])).handle
        true).outcome = proc_outcome_t.success
    ∧ new_calls (connection_setup_proc.init env_ok con_setup_0 rrc_0 4 5 (some [1])).handle
        (connection_setup_proc.react
          (connection_setup_proc.init env_ok con_setup_0 rrc_0 4 5 (some [1])).proc
          (connection_setup_proc.init env_ok con_setup_0 rrc_0 4 5 (some [1])).handle
          true).handle
      = [Call.send_con_setup_complete (some [1])]
    ∧ (new_calls (connection_setup_proc.init env_ok con_setup_0 rrc_0 4 5 (some [1])).handle
        (connection_setup_proc.react
          (connection_setup_proc.init env_ok con_setup_0 rrc_0 4 5 (some [1])).proc
          (connection_setup_proc.init env_ok con_setup_0 rrc_0 4 5 (some [1])).handle
          true).handle).countP Call.is_setup_complete = 1
    ∧ (connection_setup_proc.react
        (connection_setup_proc.init env_ok con_setup_0 rrc_0 4 5 (some [1])).proc
        (connection_setup_proc.init env_ok con_setup_0 rrc_0 4 5 (some [1])).handle
        true).proc.dedicated_info_nas = none :=
  con_setup_payload_round_trip env_ok con_setup_0 rrc_0
    (connection_setup_proc.init env_ok con_setup_0 rrc_0 4 5 (some [1])).handle 4 5
    (some [1]) (by decide)

/-! ## Setup request procedure: the successful event and the response wait -/

/-- C17: `init` stores the establishment cause first, whatever it returns.  A
successful cell-selection-complete event delivered in state `cell_selection`
makes `react` store the value of the event as cell-search result, set
`phy_cfg_state` to `PHY_CFG_STATE_APPLY_SP_CELL`, call the PHY `set_config` once
with the PHY configuration of the stack and then `send_setup_request` once with
the stored cause, and leave the procedure in state `wait_t300`. -/
theorem setup_request_react_success_effects (env : Env) (p0 p : setup_request_proc)
    (h0 h : rrc_nr) (cause_ : nr_establishment_cause_t) (nas : unique_byte_buffer_t)
    (v : cell_search_result_t) (hs : p.state = state_t.cell_selection) :
    (setup_request_proc.init env p0 h0 cause_ nas).proc.cause = cause_
    ∧ (setup_request_proc.react p h (proc_result_t.value v)).proc.cell_search_ret = v
    ∧ (setup_request_proc.react p h (proc_result_t.value v)).handle.phy_cfg_state
        = phy_cfg_state_t.PHY_CFG_STATE_APPLY_SP_CELL
    ∧ new_calls h (setup_request_proc.react p h (proc_result_t.value v)).handle
        = [Call.phy_set_config h.phy_cfg, Call.send_setup_request p.cause]
    ∧ (setup_request_proc.react p h (proc_result_t.value v)).proc.state = state_t.wait_t300
    ∧ (setup_request_proc.react p h (proc_result_t.value v)).proc.cause = p.cause
    ∧ ((setup_request_proc.init env p0 h0 cause_ nas).outcome = proc_outcome_t.yield →
        new_calls h (setup_request_proc.react
            (setup_request_proc.init env p0 h0 cause_ nas).proc h
            (proc_result_t.value v)).handle
          = [Call.phy_set_config h.phy_cfg, Call.send_setup_request cause_]) := by
  have hcause : (setup_request_proc.init env p0 h0 cause_ nas).proc.cause = cause_ := by
    unfold setup_request_proc.init
    simp only []
    split_ifs <;> rfl
  refine ⟨hcause, ?_, ?_, ?_, ?_, ?_, ?_⟩
  · rw [react_value_in_cell_selection p h v hs]
  · rw [react_value_in_cell_selection p h v hs]
    rfl
  · rw [react_value_in_cell_selection p h v hs]
    simp [new_calls, rrc_nr.log]
  · rw [react_value_in_cell_selection p h v hs]
  · rw [react_value_in_cell_selection p h v hs]
  · intro hy
    have hst : (setup_request_proc.init env p0 h0 cause_ nas).proc.state
        = state_t.cell_selection := by
      revert hy
      unfold setup_request_proc.init
      simp only []
      split_ifs <;> simp
    rw [react_value_in_cell_selection _ h v hst, hcause]
    simp [new_calls, rrc_nr.log]

/-- Witness of C17: a fresh procedure initialised with cause 3 that receives the
event `changed_cell`. -/
theorem setup_request_react_success_effects_witness :
    (setup_request_proc.react setup_req_0 rrc_0
        (proc_result_t.value cell_search_result_t.changed_cell)).proc.cell_search_ret
      = cell_search_result_t.changed_cell
    ∧ new_calls rrc_0 (setup_request_proc.react setup_req_0 rrc_0
        (proc_result_t.value cell_search_result_t.changed_cell)).handle
      = [Call.phy_set_config rrc_0.phy_cfg, Call.send_setup_request setup_req_0.cause]
    ∧ (setup_request_proc.react setup_req_0 rrc_0
        (proc_result_t.value cell_search_result_t.changed_cell)).proc.state
      = state_t.wait_t300 :=
  ⟨(setup_request_react_success_effects env_ok setup_req_0 setup_req_0 rrc_0 rrc_0 3
      (some [4]) cell_search_result_t.changed_cell rfl).2.1,
   (setup_request_react_success_effects env_ok setup_req_0 setup_req_0 rrc_0 rrc_0 3
      (some [4]) cell_search_result_t.changed_cell rfl).2.2.2.1,
   (setup_request_react_success_effects env_ok setup_req_0 setup_req_0 rrc_0 rrc_0 3
      (some [4]) cell_search_result_t.changed_cell rfl).2.2.2.2.1⟩

/-- C18: in state `wait_t300`, which has no handling, `step` runs to the final
error return: it returns error with the procedure object (its state included)
and the stack context (its call log included) unchanged.  In state
`cell_selection` it returns yield, again with nothing changed. -/
theorem setup_request_step_wait_and_selection (p : setup_request_proc) (h : rrc_nr) :
    (p.state = state_t.wait_t300 →
      (setup_request_proc.step p h).outcome = proc_outcome_t.error
      ∧ (setup_request_proc.step p h).proc = p
      ∧ (setup_request_proc.step p h).handle = h
      ∧ new_calls h (setup_request_proc.step p h).handle = [])
    ∧ (p.state = state_t.cell_selection →
      (setup_request_proc.step p h).outcome = proc_outcome_t.yield
      ∧ (setup_request_proc.step p h).proc = p
      ∧ (setup_request_proc.step p h).handle = h
      ∧ new_calls h (setup_request_proc.step p h).handle = []) := by
  constructor
  · intro hs
    rw [step_wait_t300 p h hs]
    simp [new_calls]
  · intro hs
    rw [step_cell_selection p h hs]
    simp [new_calls]

/-- Witness of C18: a procedure that waits for the response, and a fresh one. -/
theorem setup_request_step_wait_and_selection_witness :
    ((setup_request_proc.step setup_req_waiting rrc_0).outcome = proc_outcome_t.error
      ∧ (setup_request_proc.step setup_req_waiting rrc_0).proc = setup_req_waiting
      ∧ (setup_request_proc.step setup_req_waiting rrc_0).handle = rrc_0
      ∧ new_calls rrc_0 (setup_request_proc.step setup_req_waiting rrc_0).handle = [])
    ∧ ((setup_request_proc.step setup_req_0 rrc_0).outcome = proc_outcome_t.yield
      ∧ (setup_request_proc.step setup_req_0 rrc_0).proc = setup_req_0
      ∧ (setup_request_proc.step setup_req_0 rrc_0).handle = rrc_0
      ∧ new_calls rrc_0 (setup_request_proc.step setup_req_0 rrc_0).handle = []) :=
  ⟨(setup_request_step_wait_and_selection setup_req_waiting rrc_0).1 rfl,
   (setup_request_step_wait_and_selection setup_req_0 rrc_0).2 rfl⟩

/-! ## The deferred notification of the setup-request procedure -/

/-- In state `cell_selection` the error event makes `react` return error with
nothing changed. -/
theorem react_error_in_cell_selection (p : setup_request_proc) (h : rrc_nr)
    (hs : p.state = state_t.cell_selection) :
    setup_request_proc.react p h proc_result_t.error = ⟨proc_outcome_t.error, p, h⟩ := by
  simp [setup_request_proc.react, hs]

/-- Outside state `cell_selection` every event makes `react` return yield with
nothing changed. -/
theorem react_outside_cell_selection (p : setup_request_proc) (h : rrc_nr)
    (e : cell_selection_complete_ev) (hs : p.state ≠ state_t.cell_selection) :
    setup_request_proc.react p h e = ⟨proc_outcome_t.yield, p, h⟩ := by
  simp [setup_request_proc.react, hs]

/-- What a trigger appends to the call log of a context whose setup-request
procedure is busy: the trigger itself, then the calls of `react`. -/
theorem trigger_busy_new_calls (h : rrc_nr) (e : cell_selection_complete_ev)
    (hb : h.setup_req_proc.is_busy = true) :
    ∃ rest, new_calls h (setup_req_proc_trigger h e) = Call.setup_req_proc_trigger e :: rest
      ∧ rest.countP Call.is_trigger = 0 := by
  have hb2 : (h.log (Call.setup_req_proc_trigger e)).setup_req_proc.is_busy = true := hb
  unfold setup_req_proc_trigger
  simp only [hb2, if_true]
  by_cases hs : h.setup_req_proc.proc.state = state_t.cell_selection
  · have hs2 : (h.log (Call.setup_req_proc_trigger e)).setup_req_proc.proc.state
        = state_t.cell_selection := hs
    cases e with
    | error =>
      rw [react_error_in_cell_selection _ _ hs2]
      refine ⟨[], ?_, rfl⟩
      simp [defer_task, new_calls, rrc_nr.log]
    | value v =>
      rw [react_value_in_cell_selection _ _ v hs2]
      refine ⟨[Call.phy_set_config h.phy_cfg,
        Call.send_setup_request h.setup_req_proc.proc.cause], ?_, ?_⟩
      · simp [defer_task, new_calls, rrc_nr.log]
      · simp [Call.is_trigger]
  · have hs2 : (h.log (Call.setup_req_proc_trigger e)).setup_req_proc.proc.state
        ≠ state_t.cell_selection := hs
    rw [react_outside_cell_selection _ _ e hs2]
    refine ⟨[], ?_, rfl⟩
    simp [new_calls, rrc_nr.log]

/-- C19: the task that `cell_selection_proc::then` hands to the scheduler carries
the result `then` received.  When that task runs in a context whose
setup-request procedure is busy, it triggers that procedure: the first call it
logs is the trigger with that same result and it is the only trigger.  When the
setup-request procedure is not busy the task leaves the context as it was. -/
theorem deferred_notification_triggers_iff_busy (p : cell_selection_proc) (h0 h : rrc_nr)
    (proc_result : proc_result_t cell_search_result_t) :
    (cell_selection_proc.then p h0 proc_result).task_sched
        = h0.task_sched ++ [deferred_task.inform_setup_req proc_result]
    ∧ (h.setup_req_proc.is_busy = true →
        (deferred_task.inform_setup_req proc_result).run h
          = setup_req_proc_trigger h proc_result
        ∧ (new_calls h ((deferred_task.inform_setup_req proc_result).run h)).head?
          = some (Call.setup_req_proc_trigger proc_result)
        ∧ (new_calls h ((deferred_task.inform_setup_req proc_result).run h)).countP
            Call.is_trigger = 1)
    ∧ (h.setup_req_proc.is_busy = false →
        (deferred_task.inform_setup_req proc_result).run h = h
        ∧ new_calls h ((deferred_task.inform_setup_req proc_result).run h) = []) := by
  refine ⟨by simp [cell_selection_proc.then, defer_task], ?_, ?_⟩
  · intro hb
    have hrun : (deferred_task.inform_setup_req proc_result).run h
        = setup_req_proc_trigger h proc_result := by
      simp [deferred_task.run, hb]
    obtain ⟨rest, hnew, hrest⟩ := trigger_busy_new_calls h proc_result hb
    rw [hrun, hnew]
    simp [List.countP_cons, Call.is_trigger, hrest]
  · intro hb
    simp [deferred_task.run, hb, new_calls]

/-- Witness of C19: the notification of `same_cell` run while the setup-request
procedure is busy, and run while it is not. -/
theorem deferred_notification_triggers_iff_busy_witness :
    (new_calls rrc_requesting ((deferred_task.inform_setup_req
        (proc_result_t.value cell_search_result_t.same_cell)).run rrc_requesting)).countP
          Call.is_trigger = 1
    ∧ (deferred_task.inform_setup_req
        (proc_result_t.value cell_search_result_t.same_cell)).run rrc_0 = rrc_0 :=
  ⟨((deferred_notification_triggers_iff_busy cell_sel_0 rrc_0 rrc_requesting
      (proc_result_t.value cell_search_result_t.same_cell)).2.1 rfl).2.2,
   ((deferred_notification_triggers_iff_busy cell_sel_0 rrc_0 rrc_0
      (proc_result_t.value cell_search_result_t.same_cell)).2.2 rfl).1⟩

/-! ## Reactions to the configuration-complete event -/

/-- C20: for the connection setup and the reconfiguration procedure, `react`
returns success exactly when the flag of the event is true and error exactly
when it is false, so it never yields; `connection_setup_proc::react(false)`
leaves the procedure object (its payload included) and the stack context (its
call log included) unchanged, so no setup-complete message is sent. -/
theorem config_complete_react_outcomes (ps : connection_setup_proc)
    (pr : connection_reconf_no_ho_proc) (h : rrc_nr) (config_complete : Bool) :
    ((connection_setup_proc.react ps h config_complete).outcome = proc_outcome_t.success
        ↔ config_complete = true)
    ∧ ((connection_setup_proc.react ps h config_complete).outcome = proc_outcome_t.error
        ↔ config_complete = false)
    ∧ (connection_setup_proc.react ps h config_complete).outcome ≠ proc_outcome_t.yield
    ∧ ((connection_reconf_no_ho_proc.react pr h config_complete).outcome
        = proc_outcome_t.success ↔ config_complete = true)
    ∧ ((connection_reconf_no_ho_proc.react pr h config_complete).outcome
        = proc_outcome_t.error ↔ config_complete = false)
    ∧ (connection_reconf_no_ho_proc.react pr h config_complete).outcome ≠ proc_outcome_t.yield
    ∧ (connection_setup_proc.react ps h false).proc.dedicated_info_nas = ps.dedicated_info_nas
    ∧ (connection_setup_proc.react ps h false).proc = ps
    ∧ (connection_setup_proc.react ps h false).handle = h
    ∧ new_calls h (connection_setup_proc.react ps h false).handle = [] := by
  cases config_complete <;>
    simp [connection_setup_proc.react, connection_reconf_no_ho_proc.react, new_calls]

end srsue

namespace liblte

/-! ## PRACH: lemmas on the sequence generation -/

/-- A read inside a table returns the entry. -/
theorem read_of_getElem? (t : Table) (tbl : List Nat) (i u : Nat) (h : tbl[i]? = some u) :
    read t tbl i = Except.ok u := by
  simp [read, h]

/-- One pass of the loop in a normal cell when a new root is due: the root is read
at index `rsi + N_roots`, recorded for sequence `i`, and used unshifted. -/
theorem iter_new_root (i : Nat) (P : prach_t) (L : gen_seqs_vars) (u : Nat)
    (hv : L.v_max < L.v) (hhs : P.hs = false) (hf : ¬ (4 = P.f)) (hzc : ¬ (839 < P.N_zc))
    (hnr : ¬ (N_SEQS ≤ P.N_roots))
    (hu : read Table.prach_zc_roots prach_zc_roots (u32_add P.rsi P.N_roots) = Except.ok u) :
    ∃ P' L', prach_gen_seqs_iter i P L = Except.ok (P', L')
      ∧ P'.hs = P.hs ∧ P'.f = P.f ∧ P'.rsi = P.rsi ∧ P'.N_cs = P.N_cs ∧ P'.N_zc = P.N_zc
      ∧ P'.N_roots = u32 (P.N_roots + 1)
      ∧ P'.root_seqs_idx = (fun k => if k = P.N_roots then i else P.root_seqs_idx k)
      ∧ P'.seqs = (fun a j => if a = i ∧ j < P.N_zc
          then L'.root (u32 (j + u32_mul 0 P.N_cs) % P.N_zc) else P.seqs a j)
      ∧ L'.v = u32 (0 + 1)
      ∧ L'.v_max = (if P.N_cs = 0 then 0 else u32_sub (P.N_zc / P.N_cs) 1)
      ∧ L'.root = (fun j => if j < P.N_zc then cf_t.zc u j P.N_zc else L.root j) := by
  unfold prach_gen_seqs_iter
  by_cases hc : P.N_cs = 0
  · simp only [gt_iff_lt, hv, hf, hu, hzc, hnr, hhs, if_true, if_false]
    simp only [hc, bind, Except.bind, pure, Except.pure, if_true, if_false,
      Bool.false_eq_true]
    exact ⟨_, _, rfl, rfl, rfl, rfl, rfl, rfl, rfl, rfl, rfl, rfl, rfl, rfl⟩
  · have hc2 : ¬ (0 = P.N_cs) := fun h => hc h.symm
    simp only [gt_iff_lt, hv, hf, hu, hzc, hnr, hhs, if_true, if_false]
    simp only [hc2, hc, bind, Except.bind, pure, Except.pure, if_true, if_false,
      Bool.false_eq_true]
    exact ⟨_, _, rfl, rfl, rfl, rfl, rfl, rfl, rfl, rfl, rfl, rfl, rfl, rfl⟩

/-- One pass of the loop in a normal cell when no new root is due: the root in
use is shifted by `v * N_cs`. -/
theorem iter_same_root (i : Nat) (P : prach_t) (L : gen_seqs_vars)
    (hv : ¬ (L.v_max < L.v)) (hhs : P.hs = false) :
    prach_gen_seqs_iter i P L = Except.ok
      ({ P with seqs := fun a j => if a = i ∧ j < P.N_zc
            then L.root (u32 (j + u32_mul L.v P.N_cs) % P.N_zc) else P.seqs a j },
       { L with C_v := u32_mul L.v P.N_cs, v := u32 (L.v + 1) }) := by
  unfold prach_gen_seqs_iter
  simp [hv, hhs, bind, Except.bind, pure, Except.pure]

/-- The root table has 838 entries. -/
theorem prach_zc_roots_length : prach_zc_roots.length = 838 := by
  decide!

/-- Quotient and remainder of `q * S + r` with `r < S`. -/
theorem div_mod_of_decomp (n q r S : Nat) (h : n = q * S + r) (hr : r < S) :
    n / S = q ∧ n % S = r := by
  have hS : 0 < S := by omega
  rw [Nat.div_mod_unique hS]
  constructor
  · rw [h, Nat.mul_comm]
    omega
  · exact hr

/-- In a normal cell `v_max` is `S - 1`, without wrapping, when `S` is at least 1. -/
theorem v_max_normal (N_zc N_cs S : Nat) (hzc : N_zc ≤ 839)
    (hS : S = if N_cs = 0 then 1 else N_zc / N_cs) (hS1 : 1 ≤ S) :
    (if N_cs = 0 then 0 else u32_sub (N_zc / N_cs) 1) = S - 1 := by
  by_cases hc : N_cs = 0
  · simp [hc] at hS ⊢
    omega
  · simp only [hc, if_false] at hS ⊢
    have hle : N_zc / N_cs ≤ N_zc := Nat.div_le_self _ _
    rw [← hS] at hle ⊢
    simp only [u32_sub, u32]
    omega

/-- A shift `r * N_cs` with `r < S` does not exceed `N_zc`. -/
theorem shift_le (N_zc N_cs S r : Nat)
    (hS : S = if N_cs = 0 then 1 else N_zc / N_cs) (hr : r < S) :
    r * N_cs ≤ N_zc := by
  by_cases hc : N_cs = 0
  · simp [hc]
  · simp only [hc, if_false] at hS
    have h1 : r * N_cs ≤ (N_zc / N_cs) * N_cs := by
      apply Nat.mul_le_mul_right
      omega
    have h2 : (N_zc / N_cs) * N_cs ≤ N_zc := Nat.div_mul_le_self _ _
    omega

/-- One pass of the loop keeps the invariant, as long as the root it may read is
inside the table. -/
theorem gen_seqs_step (p0 : prach_t) (S n : Nat) (P : prach_t) (L : gen_seqs_vars)
    (hhs : p0.hs = false) (hf : p0.f ≠ 4) (hzc : p0.N_zc ≤ 839)
    (hS : S = if p0.N_cs = 0 then 1 else p0.N_zc / p0.N_cs) (hS1 : 1 ≤ S)
    (hin : p0.rsi + 63 / S < 838) (hn : n < 64)
    (hinv : gen_seqs_inv p0 S n P L) :
    ∃ P' L', prach_gen_seqs_iter n P L = Except.ok (P', L')
      ∧ gen_seqs_inv p0 S (n + 1) P' L' := by
  obtain ⟨ehs, ef, ersi, ecs, ezc, ⟨q, r, hdec, hr, hr0, hrpos⟩, hseq, hidx⟩ := hinv
  have hvm := v_max_normal p0.N_zc p0.N_cs S hzc hS hS1
  have hdm := div_mod_of_decomp n q r S hdec hr
  have hqS : q * S ≤ 63 := by omega
  have hq : q ≤ 63 / S := (Nat.le_div_iff_mul_le (by omega)).2 hqS
  have hq63 : q ≤ 63 := by
    have : q * 1 ≤ q * S := Nat.mul_le_mul_left q hS1
    omega
  have hshift := shift_le p0.N_zc p0.N_cs S r hS hr
  by_cases hrz : r = 0
  · -- a new root is taken
    obtain ⟨hv, hroots⟩ := hr0 hrz
    have hlt : p0.rsi + q < prach_zc_roots.length := by
      rw [prach_zc_roots_length]
      omega
    have hget : prach_zc_roots[p0.rsi + q]? = some (prach_zc_roots[p0.rsi + q]) :=
      List.getElem?_eq_getElem hlt
    have hidx0 : u32_add P.rsi P.N_roots = p0.rsi + q := by
      rw [ersi, hroots]
      simp only [u32_add, u32]
      omega
    have hu : read Table.prach_zc_roots prach_zc_roots (u32_add P.rsi P.N_roots)
        = Except.ok (prach_zc_roots[p0.rsi + q]) := by
      rw [hidx0]
      exact read_of_getElem? _ _ _ _ hget
    obtain ⟨P', L', hiter, h1, h2, h3, h4, h5, h6, h7, h8, h9, h10, h11⟩ :=
      iter_new_root n P L _ hv (by rw [ehs]; exact hhs) (by rw [ef]; omega) (by omega)
        (by rw [hroots]; simp only [N_SEQS]; omega) hu
    refine ⟨P', L', hiter, ?_, ?_, ?_, ?_, ?_, ?_, ?_, ?_⟩
    · rw [h1, ehs]
    · rw [h2, ef]
    · rw [h3, ersi]
    · rw [h4, ecs]
    · rw [h5, ezc]
    · have hv1 : L'.v = 1 := by
        rw [h9]
        simp [u32]
      have hvmax : L'.v_max = S - 1 := by
        rw [h10, ecs, ezc]
        exact hvm
      have hnr : P'.N_roots = q + 1 := by
        rw [h6, hroots]
        simp only [u32]
        omega
      by_cases hS' : S = 1
      · refine ⟨q + 1, 0, ?_, by omega, ?_, ?_⟩
        · subst hS'
          omega
        · intro _
          exact ⟨by omega, hnr⟩
        · intro h
          omega
      · refine ⟨q, 1, by omega, by omega, ?_, ?_⟩
        · intro h
          omega
        · intro _
          refine ⟨hv1, hvmax, hnr, _, hget, ?_⟩
          intro j hj
          rw [h11, ezc]
          simp [hj]
    · intro i hi j hj
      by_cases hin' : i = n
      · subst hin'
        refine ⟨prach_zc_roots[p0.rsi + q], ?_, ?_⟩
        · rw [hdm.1]
          exact hget
        · rw [h8, h11, ezc, ecs, hdm.2, hrz]
          have hmod : u32 (j + u32_mul 0 p0.N_cs) % p0.N_zc = j := by
            have h0 : u32_mul 0 p0.N_cs = 0 := by simp [u32_mul, u32]
            have hj32 : u32 (j + 0) = j := by
              simp only [u32, Nat.add_zero]
              exact Nat.mod_eq_of_lt (by omega)
            rw [h0, hj32]
            exact Nat.mod_eq_of_lt hj
          simp [hj, hmod, Nat.mod_eq_of_lt hj]
      · have hi' : i < n := by omega
        obtain ⟨u, hu1, hu2⟩ := hseq i hi' j hj
        refine ⟨u, hu1, ?_⟩
        rw [h8]
        simp [hin', hu2]
    · intro k hk
      rw [h6, hroots] at hk
      have hk' : k < q + 1 := by
        simp only [u32] at hk
        omega
      rw [h7, hroots]
      by_cases hkq : k = q
      · subst hkq
        simp
        omega
      · simp only [hkq, if_false]
        apply hidx
        rw [hroots]
        omega
  · -- the root in use is shifted
    have hrp : 0 < r := by omega
    obtain ⟨hv, hvmax, hroots, u, hget, hroot⟩ := hrpos hrp
    have hnv : ¬ (L.v_max < L.v) := by omega
    have hiter := iter_same_root n P L hnv (by rw [ehs]; exact hhs)
    refine ⟨_, _, hiter, ehs, ef, ersi, ecs, ezc, ?_, ?_, ?_⟩
    · have hv' : u32 (L.v + 1) = r + 1 := by
        simp only [u32]
        omega
      by_cases hlast : r + 1 = S
      · refine ⟨q + 1, 0, ?_, by omega, ?_, ?_⟩
        · rw [Nat.add_mul]
          omega
        · intro _
          refine ⟨?_, hroots⟩
          show L.v_max < u32 (L.v + 1)
          omega
        · intro h
          omega
      · refine ⟨q, r + 1, by omega, by omega, ?_, ?_⟩
        · intro h
          omega
        · intro _
          exact ⟨hv', hvmax, hroots, u, hget, hroot⟩
    · intro i hi j hj
      by_cases hin' : i = n
      · subst hin'
        refine ⟨u, ?_, ?_⟩
        · rw [hdm.1]
          exact hget
        · have hz : 0 < p0.N_zc := by omega
          have hC : u32 (j + u32_mul L.v P.N_cs) = j + r * p0.N_cs := by
            rw [hv, ecs]
            simp only [u32_mul, u32]
            omega
          show (if i = i ∧ j < P.N_zc then L.root (u32 (j + u32_mul L.v P.N_cs) % P.N_zc)
            else P.seqs i j) = _
          rw [hC, ezc, hdm.2]
          simp only [hj, and_self, if_true]
          exact hroot _ (Nat.mod_lt _ hz)
      · have hi' : i < n := by omega
        obtain ⟨u', hu1, hu2⟩ := hseq i hi' j hj
        refine ⟨u', hu1, ?_⟩
        show (if i = n ∧ j < P.N_zc then _ else P.seqs i j) = _
        simp [hin', hu2]
    · exact hidx

/-- The remaining passes of the loop return and lead to the invariant at 64. -/
theorem gen_seqs_loop_inv (p0 : prach_t) (S : Nat)
    (hhs : p0.hs = false) (hf : p0.f ≠ 4) (hzc : p0.N_zc ≤ 839)
    (hS : S = if p0.N_cs = 0 then 1 else p0.N_zc / p0.N_cs) (hS1 : 1 ≤ S)
    (hin : p0.rsi + 63 / S < 838) :
    ∀ (m n : Nat) (P : prach_t) (L : gen_seqs_vars), n + m = 64 →
      gen_seqs_inv p0 S n P L →
      ∃ P' L', prach_gen_seqs_loop m n P L = Except.ok (P', L')
        ∧ gen_seqs_inv p0 S 64 P' L' := by
  intro m
  induction m with
  | zero =>
    intro n P L hnm hinv
    have hn : n = 64 := by omega
    subst hn
    exact ⟨P, L, rfl, hinv⟩
  | succ m ih =>
    intro n P L hnm hinv
    obtain ⟨P1, L1, hiter, hinv1⟩ :=
      gen_seqs_step p0 S n P L hhs hf hzc hS hS1 hin (by omega) hinv
    obtain ⟨P2, L2, hloop, hinv2⟩ := ih (n + 1) P1 L1 (by omega) hinv1
    refine ⟨P2, L2, ?_, hinv2⟩
    simp only [prach_gen_seqs_loop, hiter]
    exact hloop

/-- The invariant holds on entry of the loop. -/
theorem gen_seqs_inv_init (p : prach_t) (S : Nat) (hS1 : 1 ≤ S) (hr0 : p.N_roots = 0) :
    gen_seqs_inv p S 0 p gen_seqs_vars_0 := by
  refine ⟨rfl, rfl, rfl, rfl, rfl, ⟨0, 0, by omega, by omega, ?_, ?_⟩, ?_, ?_⟩
  · intro _
    exact ⟨by decide, hr0⟩
  · intro h
    omega
  · intro i hi
    omega
  · intro k hk
    omega

/-- At the end of the loop `N_roots` is `ceil(64 / S)`. -/
theorem gen_seqs_inv_roots (p0 : prach_t) (S : Nat) (P : prach_t) (L : gen_seqs_vars)
    (hinv : gen_seqs_inv p0 S 64 P L) :
    P.N_roots = (64 + S - 1) / S := by
  obtain ⟨_, _, _, _, _, ⟨q, r, hdec, hr, hr0, hrpos⟩, _, _⟩ := hinv
  by_cases hrz : r = 0
  · rw [(hr0 hrz).2]
    have h := div_mod_of_decomp (64 + S - 1) q (S - 1) S (by omega) (by omega)
    exact h.1.symm
  · rw [(hrpos (by omega)).2.2.1]
    have h := div_mod_of_decomp (64 + S - 1) (q + 1) (r - 1) S
      (by rw [Nat.add_mul]; omega) (by omega)
    exact h.1.symm

/-- The result of `prach_gen_seqs` in a normal cell in which `S` sequences share
a root. -/
theorem gen_seqs_normal (p : prach_t) (S : Nat)
    (hhs : p.hs = false) (hf : p.f ≠ 4) (hzc : p.N_zc ≤ 839) (hr0 : p.N_roots = 0)
    (hS : S = if p.N_cs = 0 then 1 else p.N_zc / p.N_cs) (hS1 : 1 ≤ S)
    (hin : p.rsi + 63 / S < 838) :
    ∃ p', prach_gen_seqs p = Except.ok (0, p')
      ∧ (∀ i, i < 64 → ∀ j, j < p.N_zc → ∃ u, prach_zc_roots[p.rsi + i / S]? = some u
          ∧ p'.seqs i j = cf_t.zc u ((j + (i % S) * p.N_cs) % p.N_zc) p.N_zc)
      ∧ p'.N_roots = (64 + S - 1) / S
      ∧ (∀ k, k < p'.N_roots → p'.root_seqs_idx k = k * S) := by
  obtain ⟨P', L', hloop, hinv⟩ :=
    gen_seqs_loop_inv p S hhs hf hzc hS hS1 hin 64 0 p gen_seqs_vars_0 (by omega)
      (gen_seqs_inv_init p S hS1 hr0)
  refine ⟨P', ?_, hinv.2.2.2.2.2.2.1, gen_seqs_inv_roots p S P' L' hinv, hinv.2.2.2.2.2.2.2⟩
  simp only [prach_gen_seqs, N_SEQS, hloop]

/-- A copy loop whose indices all lie inside the two buffers returns. -/
theorem copy_loop_returns (tsrc tdst : Table) (src : buf_t) (fsrc fdst : Nat → Nat) :
    ∀ (n i : Nat) (dst : buf_t),
      (∀ k, i ≤ k → k < i + n → fsrc k < src.size ∧ fdst k < dst.size) →
      ∃ dst', copy_loop tsrc tdst src fsrc fdst n i dst = Except.ok dst'
        ∧ dst'.size = dst.size := by
  intro n
  induction n with
  | zero =>
    intro i dst _
    exact ⟨dst, rfl, rfl⟩
  | succ n ih =>
    intro i dst h
    have hi := h i (Nat.le_refl i) (by omega)
    have h1 : ¬ (src.size ≤ fsrc i) := by omega
    have h2 : ¬ (dst.size ≤ fdst i) := by omega
    simp only [copy_loop, h1, h2, if_false]
    exact ih (i + 1) _ (fun k hk1 hk2 => h k (by omega) (by omega))

/-! ## PRACH: claims -/

/-- C21: a call of `prach_init` with a non-null `p` and `N_ifft_ul >= 2049`, or
`preamble_format >= 4` (format 4 included), or `root_seq_index >= 838`, or
`zero_corr_zone_config >= 16` returns `LIBLTE_ERROR` and leaves `*p` as it was. -/
theorem prach_init_rejects_invalid_input (env : dft_env) (p : prach_t)
    (N_ifft_ul preamble_format root_seq_index : Nat) (high_speed_flag : Bool)
    (zero_corr_zone_config : Nat)
    (hbad : 2049 ≤ N_ifft_ul ∨ 4 ≤ preamble_format ∨ 838 ≤ root_seq_index
      ∨ 16 ≤ zero_corr_zone_config) :
    prach_init env (some p) N_ifft_ul preamble_format root_seq_index high_speed_flag
        zero_corr_zone_config
      = Except.ok (ret_t.LIBLTE_ERROR, some p) := by
  have hg : ¬ (N_ifft_ul < 2049 ∧ preamble_format < 4 ∧ root_seq_index < MAX_ROOTS
      ∧ zero_corr_zone_config < 16) := by
    simp only [MAX_ROOTS]
    omega
  unfold prach_init
  simp only [hg, if_false]
  rfl

/-- Witness of C21: preamble format 4 is rejected. -/
theorem prach_init_rejects_invalid_input_witness :
    prach_init dft_ok (some prach_0) 128 4 0 false 0
      = Except.ok (ret_t.LIBLTE_ERROR, some prach_0) :=
  prach_init_rejects_invalid_input dft_ok prach_0 128 4 0 false 0 (by decide)

/-- C22 (counterexample): two inputs that `prach_init` accepts for a normal cell
and for which `prach_gen_seqs` produces no sequences, because a root is read
past the end of `prach_zc_roots`.  With `root_seq_index = 837` and
`zero_corr_zone_config = 15` (`N_cs = 419`, two sequences per root) the second
root is read at index 838; with `root_seq_index = 775` and
`zero_corr_zone_config = 0` (`N_cs = 0`, one sequence per root) the last root
is read at index 838. -/
theorem prach_gen_seqs_no_result_near_table_end :
    (128 < 2049 ∧ 0 < 4 ∧ 837 < MAX_ROOTS ∧ 15 < 16)
    ∧ prach_Ncs_unrestricted[15]? = some 419
    ∧ fault_of (prach_init dft_ok (some prach_0) 128 0 837 false 15)
        = some (Fault.out_of_bounds Table.prach_zc_roots 838)
    ∧ fault_of (prach_gen_seqs { prach_normal with N_cs := 419, rsi := 837 })
        = some (Fault.out_of_bounds Table.prach_zc_roots 838)
    ∧ (¬ ∃ p', prach_gen_seqs { prach_normal with N_cs := 419, rsi := 837 }
        = Except.ok (0, p'))
    ∧ (128 < 2049 ∧ 0 < 4 ∧ 775 < MAX_ROOTS ∧ 0 < 16)
    ∧ prach_Ncs_unrestricted[0]? = some 0
    ∧ fault_of (prach_init dft_ok (some prach_0) 128 0 775 false 0)
        = some (Fault.out_of_bounds Table.prach_zc_roots 838)
    ∧ fault_of (prach_gen_seqs { prach_normal with N_cs := 0, rsi := 775 })
        = some (Fault.out_of_bounds Table.prach_zc_roots 838)
    ∧ (¬ ∃ p', prach_gen_seqs { prach_normal with N_cs := 0, rsi := 775 }
        = Except.ok (0, p')) := by
  have h1 : fault_of (prach_gen_seqs { prach_normal with N_cs := 419, rsi := 837 })
      = some (Fault.out_of_bounds Table.prach_zc_roots 838) := by
    decide!
  have h2 : fault_of (prach_gen_seqs { prach_normal with N_cs := 0, rsi := 775 })
      = some (Fault.out_of_bounds Table.prach_zc_roots 838) := by
    decide!
  refine ⟨by decide, by decide, by decide!, h1, ?_, by decide, by decide, by decide!, h2, ?_⟩
  · rintro ⟨p', hp⟩
    rw [hp] at h1
    simp [fault_of] at h1
  · rintro ⟨p', hp⟩
    rw [hp] at h2
    simp [fault_of] at h2

/-- C22 (amended): `prach_gen_seqs` in a normal cell, entered with `N_roots = 0`
as `prach_init` does, for a preamble format 0-3, when every root read is inside
`prach_zc_roots`: `rsi + 63 / S < 838`, that is `rsi + ceil(64 / S) <= 838`.
With `N_cs != 0` and `S = N_zc / N_cs`, the call returns, and
sequence `i < 64` is the root at index `rsi + i / S` of the table, shifted by
`C_v = (i % S) * N_cs`: `seqs[i][j] = root[(j + C_v) % N_zc]`; `N_roots` is
`ceil(64 / S)` and `root_seqs_idx[k] = k * S`.  With `N_cs = 0` sequence `i` is
the unshifted root at index `rsi + i`, `N_roots = 64` and
`root_seqs_idx[k] = k`. -/
theorem prach_gen_seqs_normal_cell (p : prach_t)
    (hhs : p.hs = false) (hf : p.f < 4) (hzc : p.N_zc ≤ 839) (hr0 : p.N_roots = 0) :
    (p.N_cs ≠ 0 → p.N_cs ≤ p.N_zc → p.rsi + 63 / (p.N_zc / p.N_cs) < 838 →
      ∃ p', prach_gen_seqs p = Except.ok (0, p')
        ∧ (∀ i, i < 64 → ∀ j, j < p.N_zc →
            ∃ u, prach_zc_roots[p.rsi + i / (p.N_zc / p.N_cs)]? = some u
              ∧ p'.seqs i j
                = cf_t.zc u ((j + (i % (p.N_zc / p.N_cs)) * p.N_cs) % p.N_zc) p.N_zc)
        ∧ p'.N_roots = (64 + p.N_zc / p.N_cs - 1) / (p.N_zc / p.N_cs)
        ∧ (∀ k, k < p'.N_roots → p'.root_seqs_idx k = k * (p.N_zc / p.N_cs)))
    ∧ (p.N_cs = 0 → p.rsi + 63 < 838 →
      ∃ p', prach_gen_seqs p = Except.ok (0, p')
        ∧ (∀ i, i < 64 → ∀ j, j < p.N_zc →
            ∃ u, prach_zc_roots[p.rsi + i]? = some u ∧ p'.seqs i j = cf_t.zc u j p.N_zc)
        ∧ p'.N_roots = 64
        ∧ (∀ k, k < 64 → p'.root_seqs_idx k = k)) := by
  constructor
  · intro hc hle hin
    have hS1 : 1 ≤ p.N_zc / p.N_cs := (Nat.one_le_div_iff (by omega)).2 hle
    exact gen_seqs_normal p (p.N_zc / p.N_cs) hhs (by omega) hzc hr0 (by simp [hc]) hS1 hin
  · intro hc hin
    obtain ⟨p', hok, hseq, hroots, hidx⟩ :=
      gen_seqs_normal p 1 hhs (by omega) hzc hr0 (by simp [hc]) (by omega) (by simpa using hin)
    refine ⟨p', hok, ?_, by simpa using hroots, ?_⟩
    · intro i hi j hj
      obtain ⟨u, hu1, hu2⟩ := hseq i hi j hj
      refine ⟨u, by simpa using hu1, ?_⟩
      rw [hu2]
      simp [Nat.mod_one, Nat.mod_eq_of_lt hj]
    · intro k hk
      have := hidx k (by rw [hroots]; simpa using hk)
      simpa using this

/-- Witness of C22 (amended): `N_zc = 839`, `N_cs = 13` and `rsi = 0`, where all 64
sequences are shifts of the first root. -/
theorem prach_gen_seqs_normal_cell_witness :
    ∃ p', prach_gen_seqs prach_normal = Except.ok (0, p')
      ∧ (∀ i, i < 64 → ∀ j, j < prach_normal.N_zc →
          ∃ u, prach_zc_roots[prach_normal.rsi + i / (prach_normal.N_zc / prach_normal.N_cs)]?
              = some u
            ∧ p'.seqs i j = cf_t.zc u
                ((j + (i % (prach_normal.N_zc / prach_normal.N_cs)) * prach_normal.N_cs)
                  % prach_normal.N_zc) prach_normal.N_zc)
      ∧ p'.N_roots = (64 + prach_normal.N_zc / prach_normal.N_cs - 1)
          / (prach_normal.N_zc / prach_normal.N_cs)
      ∧ (∀ k, k < p'.N_roots →
          p'.root_seqs_idx k = k * (prach_normal.N_zc / prach_normal.N_cs)) :=
  (prach_gen_seqs_normal_cell prach_normal rfl (by decide) (by decide) rfl).1
    (by decide) (by decide) (by decide)

/-- C23 (evaluation at the failing input): `prach_init` accepts
`zero_corr_zone_config = 15` for a high-speed cell and reads entry 15 of
`prach_Ncs_restricted`, which has 15 entries. -/
theorem prach_init_reads_past_restricted_table :
    prach_Ncs_restricted.length = 15
    ∧ (128 < 2049 ∧ 0 < 4 ∧ 0 < MAX_ROOTS ∧ 15 < 16)
    ∧ fault_of (prach_init dft_ok (some prach_0) 128 0 0 true 15)
        = some (Fault.out_of_bounds Table.prach_Ncs_restricted 15) := by
  decide!

/-- C24 (evaluation at the failing input): with `root_seq_index = 837` and
`zero_corr_zone_config = 0` in a normal cell every sequence takes a new root,
and the second one is read at index 838 of `prach_zc_roots`, which has 838
entries. -/
theorem prach_gen_seqs_reads_past_root_table :
    prach_zc_roots.length = 838
    ∧ (128 < 2049 ∧ 0 < 4 ∧ 837 < MAX_ROOTS ∧ 0 < 16)
    ∧ fault_of (prach_init dft_ok (some prach_0) 128 0 837 false 0)
        = some (Fault.out_of_bounds Table.prach_zc_roots 838) := by
  decide!

/-- C25 (evaluation at failing inputs): for the first root (129) and the first
restricted `N_cs` (15) the sum `N_shift*N_group + N_neg_shift` is 0 and `v_max`
wraps to `2^32 - 1`; for root 56 the difference in `N_neg_shift` is negative and
wraps; for root 93 `N_shift` is 0 and `prach_init` divides by it. -/
theorem hs_arithmetic_wraps_and_divides_by_zero :
    prach_zc_roots[0]? = some 129 ∧ prach_Ncs_restricted[0]? = some 15
    ∧ (hs_v_max 839 15 129).toOption = some ⟨826, 13, 54, 1623, 0, 0, 4294967295⟩
    ∧ prach_zc_roots[24]? = some 56
    ∧ (hs_v_max 839 15 56).toOption = some ⟨15, 15, 1, 45, 18, 286331153, 286331170⟩
    ∧ 839 < 2 * 15 + 18 * 45
    ∧ prach_zc_roots[14]? = some 93
    ∧ (hs_v_max 839 15 93).toOption = some ⟨415, 415, 0, 9, 46, 0, 4294967295⟩
    ∧ fault_of (prach_init dft_ok (some prach_0) 128 0 14 true 0)
        = some Fault.division_by_zero := by
  decide!

/-- C26 (counterexample): for `N_ifft_ul = 128` and `freq_offset = 0` the
difference `freq_offset*12 - N_rb_ul*12/2` of the computation of `k_0` is
`0 - 36`, which wraps to `2^32 - 36`. -/
theorem prach_k_0_difference_wraps :
    prach_get_rb_ul 128 = 6 ∧ 0 + 6 ≤ prach_get_rb_ul 128
    ∧ u32_mul 0 N_RB_SC < u32_mul (prach_get_rb_ul 128) N_RB_SC / 2
    ∧ u32_sub (u32_mul 0 N_RB_SC) (u32_mul (prach_get_rb_ul 128) N_RB_SC / 2) = 2 ^ 32 - 36 := by
  decide!

/-- C26 (amended): for `N_ifft_ul` in {128, 256, 512, 1024, 1536, 2048}, a
preamble format 0-3 and `freq_offset + 6 <= N_rb_ul`, the value of `k_0` is the
exact integer `freq_offset*12 - N_rb_ul*12/2 + N_ifft_ul/2` (the difference
wraps when `freq_offset*12 < N_rb_ul*12/2` and the sum wraps back), `begin` is
`7 + 12*k_0 + 6`, and `begin + 839 <= N_ifft_prach = 12 * N_ifft_ul`, so every
index `begin + i` with `i < N_zc = 839` is inside the buffer: the mapping loop
of `prach_gen` and the extraction loop of `prach_detect` return without a
fault on buffers of that length. -/
theorem prach_begin_inside_ifft_buffer (N_ifft_ul preamble_format freq_offset : Nat)
    (hN : N_ifft_ul ∈ [128, 256, 512, 1024, 1536, 2048])
    (hf : preamble_format < 4)
    (hfo : freq_offset + 6 ≤ prach_get_rb_ul N_ifft_ul) :
    prach_k_0 N_ifft_ul freq_offset + prach_get_rb_ul N_ifft_ul * 12 / 2
        = freq_offset * 12 + N_ifft_ul / 2
    ∧ prach_begin N_ifft_ul freq_offset = 7 + 12 * prach_k_0 N_ifft_ul freq_offset + 6
    ∧ prach_N_ifft_prach preamble_format N_ifft_ul = 12 * N_ifft_ul
    ∧ prach_begin N_ifft_ul freq_offset + 839 ≤ prach_N_ifft_prach preamble_format N_ifft_ul
    ∧ (∀ i, i < 839 →
        u32_add (prach_begin N_ifft_ul freq_offset) i = prach_begin N_ifft_ul freq_offset + i
        ∧ u32_add (prach_begin N_ifft_ul freq_offset) i
            < prach_N_ifft_prach preamble_format N_ifft_ul)
    ∧ (∀ src dst : buf_t, 839 ≤ src.size →
        dst.size = prach_N_ifft_prach preamble_format N_ifft_ul →
        ∃ dst', copy_loop Table.dft_seqs Table.ifft_in src (fun i => i)
          (fun i => u32_add (prach_begin N_ifft_ul freq_offset) i) 839 0 dst = Except.ok dst')
    ∧ (∀ src dst : buf_t, src.size = prach_N_ifft_prach preamble_format N_ifft_ul →
        839 ≤ dst.size →
        ∃ dst', copy_loop Table.signal Table.prach_bins src
          (fun i => u32_add (prach_begin N_ifft_ul freq_offset) i) (fun i => i) 839 0 dst
            = Except.ok dst') := by
  have h4 : ¬ (4 = preamble_format) := by omega
  simp only [List.mem_cons, List.mem_singleton, List.not_mem_nil, or_false] at hN
  have hk : prach_k_0 N_ifft_ul freq_offset + prach_get_rb_ul N_ifft_ul * 12 / 2
      = freq_offset * 12 + N_ifft_ul / 2 := by
    rcases hN with h | h | h | h | h | h <;> subst h <;>
      norm_num [prach_get_rb_ul] at hfo <;>
      norm_num [prach_k_0, prach_get_rb_ul, u32_add, u32_sub, u32_mul, u32, N_RB_SC] <;>
      omega
  have hkb : prach_k_0 N_ifft_ul freq_offset ≤ 1552 ∧ 12 * prach_k_0 N_ifft_ul freq_offset + 852
      ≤ 12 * N_ifft_ul := by
    rcases hN with h | h | h | h | h | h <;> subst h <;>
      norm_num [prach_get_rb_ul] at hfo hk <;> omega
  have hb : prach_begin N_ifft_ul freq_offset = 7 + 12 * prach_k_0 N_ifft_ul freq_offset + 6 := by
    norm_num [prach_begin, u32_add, u32_mul, u32, DELTA_F, DELTA_F_RA, PHI]
    omega
  have hn : prach_N_ifft_prach preamble_format N_ifft_ul = 12 * N_ifft_ul := by
    rcases hN with h | h | h | h | h | h <;> subst h <;>
      norm_num [prach_N_ifft_prach, u32_mul, u32, DELTA_F, DELTA_F_RA, h4]
  have hidx : ∀ i, i < 839 →
      u32_add (prach_begin N_ifft_ul freq_offset) i = prach_begin N_ifft_ul freq_offset + i
      ∧ u32_add (prach_begin N_ifft_ul freq_offset) i
          < prach_N_ifft_prach preamble_format N_ifft_ul := by
    intro i hi
    have hadd : u32_add (prach_begin N_ifft_ul freq_offset) i
        = prach_begin N_ifft_ul freq_offset + i := by
      rw [hb]
      simp only [u32_add, u32]
      omega
    rw [hadd, hn, hb]
    omega
  refine ⟨hk, hb, hn, ?_, hidx, ?_, ?_⟩
  · rw [hb, hn]
    omega
  · intro src dst hsrc hdst
    obtain ⟨dst', h, _⟩ := copy_loop_returns Table.dft_seqs Table.ifft_in src (fun i => i)
      (fun i => u32_add (prach_begin N_ifft_ul freq_offset) i) 839 0 dst
      (fun k _ hk => ⟨by show k < src.size; omega, by rw [hdst]; exact (hidx k (by omega)).2⟩)
    exact ⟨dst', h⟩
  · intro src dst hsrc hdst
    obtain ⟨dst', h, _⟩ := copy_loop_returns Table.signal Table.prach_bins src
      (fun i => u32_add (prach_begin N_ifft_ul freq_offset) i) (fun i => i) 839 0 dst
      (fun k _ hk => ⟨by rw [hsrc]; exact (hidx k (by omega)).2, by show k < dst.size; omega⟩)
    exact ⟨dst', h⟩

/-- Witness of C26 (amended) at the lowest frequency offset of the smallest
bandwidth. -/
theorem prach_begin_inside_ifft_buffer_witness :
    prach_k_0 128 0 + prach_get_rb_ul 128 * 12 / 2 = 0 * 12 + 128 / 2
    ∧ prach_begin 128 0 = 7 + 12 * prach_k_0 128 0 + 6
    ∧ prach_N_ifft_prach 0 128 = 12 * 128
    ∧ prach_begin 128 0 + 839 ≤ prach_N_ifft_prach 0 128
    ∧ (∀ i, i < 839 →
        u32_add (prach_begin 128 0) i = prach_begin 128 0 + i
        ∧ u32_add (prach_begin 128 0) i < prach_N_ifft_prach 0 128)
    ∧ (∀ src dst : buf_t, 839 ≤ src.size → dst.size = prach_N_ifft_prach 0 128 →
        ∃ dst', copy_loop Table.dft_seqs Table.ifft_in src (fun i => i)
          (fun i => u32_add (prach_begin 128 0) i) 839 0 dst = Except.ok dst')
    ∧ (∀ src dst : buf_t, src.size = prach_N_ifft_prach 0 128 → 839 ≤ dst.size →
        ∃ dst', copy_loop Table.signal Table.prach_bins src
          (fun i => u32_add (prach_begin 128 0) i) (fun i => i) 839 0 dst = Except.ok dst') :=
  prach_begin_inside_ifft_buffer 128 0 0 (by decide) (by decide) (by decide)

end liblte
